import Mathlib

/-!
# The socket bridge of couchbase-lite-java-common

A shallow embedding of `src/common/main/cpp/native_c4socket.cc`, of the
logging callback and the log-level entry points of `native_c4.cc`, of
`C4BlobReadStream.read`, `C4BlobStore.getContents` and
`C4BlobStore.getFilePath` of `native_c4blobstore.cc`, and of
`C4DocEnumerator.enumerateChanges` and `C4DocEnumerator.next` of
`native_c4docenumerator.cc`.

The bridge functions have no state of their own: every one of them is a
straight line of calls into the Java VM, the logging sink and the native
engine.  A function is therefore embedded as the list of calls it makes
(its trace), computed from its arguments and from the replies the Java VM
and the engine give on the calling thread, together with the value it
returns where it returns one.
-/

namespace NativeC4Socket

/-! ## Data -/

/-- A byte slice (`C4Slice`, `C4String`, `C4SliceResult`): its bytes. -/
abbrev Slice := List Nat

/-- A managed string (`jstring`): its text. -/
abbrev JString := String

/-- The status `JNI_OK` of jni.h. -/
def JNI_OK : Int := 0

/-- The status `JNI_EDETACHED` of jni.h. -/
def JNI_EDETACHED : Int := -2

/-- The cast `(jlong) x` of a pointer or of a `size_t`: the 64 bits of `x`
read as a signed integer. -/
def toJLong (x : Nat) : Int :=
  if x % 2 ^ 64 < 2 ^ 63 then ((x % 2 ^ 64 : Nat) : Int) else ((x % 2 ^ 64 : Nat) : Int) - 2 ^ 64

/-- The cast `(jint) x` of an `int`: the 32 bits of `x` read as a signed integer. -/
def toJInt (x : Int) : Int :=
  (x + 2 ^ 31) % 2 ^ 32 - 2 ^ 31

/-- The address record `C4Address` as far as `socket_open` reads it. -/
structure C4Address where
  scheme : Slice
  hostname : Slice
  port : Nat
  path : Slice
deriving DecidableEq

/-- The five static methods of the managed class `C4Socket` the bridge looks
up in `initC4Socket`. -/
inductive JMethod where
  | m_C4Socket_open
  | m_C4Socket_write
  | m_C4Socket_completedReceive
  | m_C4Socket_requestClose
  | m_C4Socket_close
deriving DecidableEq

/-- An argument handed to `CallStaticVoidMethod`.  `toJString` and
`toJByteArray` stand for the results of the conversion helpers of
native_glue applied to a slice. -/
inductive JValue where
  | jlong (v : Int)
  | jint (v : Int)
  | jobject (ref : Nat)
  | toJString (s : Slice)
  | toJByteArray (s : Slice)
deriving DecidableEq

/-- Where the `JNIEnv *env` used for a call came from: filled in by `GetEnv`
(the thread already had an environment) or by `attachCurrentThread`. -/
inductive EnvOrigin where
  | fromGetEnv
  | fromAttach
deriving DecidableEq

/-- The error record `C4Error` made by the engine constructor `c4error_make`
from its three arguments. -/
structure C4Error where
  domain : Int
  code : Int
  message : Slice
deriving DecidableEq

/-- The engine constructor `c4error_make(domain, code, message)`, kept
symbolic: the record of its three arguments. -/
def c4error_make (domain : Int) (code : Int) (message : Slice) : C4Error :=
  { domain := domain, code := code, message := message }

/-- A callback of the bridge, as a function pointer held in a
`C4SocketFactory`. -/
inductive SocketCallback where
  | socket_open
  | socket_write
  | socket_completedReceive
  | socket_close
  | socket_requestClose
deriving DecidableEq

/-- The record `C4SocketFactory`, its fields in the order of `kSocketFactory`;
a callback that is `nullptr` is `none`, and the context is a pointer. -/
structure C4SocketFactory where
  framing : Int
  context : Nat
  open_ : Option SocketCallback
  write : Option SocketCallback
  completedReceive : Option SocketCallback
  close : Option SocketCallback
  requestClose : Option SocketCallback
  dispose : Option SocketCallback
deriving DecidableEq

/-- One call made by the bridge: into the Java VM, the logging sink or the
native engine.  `c4socket_fromNative` is recorded with the handle the engine
returns. -/
inductive Action where
  | GetEnv
  | attachCurrentThread
  | CallStaticVoidMethod (env : EnvOrigin) (method : JMethod) (args : List JValue)
  | DetachCurrentThread
  | C4Warn (fmt : String) (args : List Int)
  | c4slice_free (data : Slice)
  | c4socket_retain (socket : Nat)
  | c4socket_fromNative (factory : C4SocketFactory) (nativeHandle : Nat) (address : C4Address)
      (created : Nat)
  | c4socket_opened (socket : Nat)
  | c4socket_gotHTTPResponse (socket : Nat) (httpStatus : Int) (responseHeadersFleece : Slice)
  | c4socket_completedWrite (socket : Nat) (byteCount : Nat)
  | c4socket_received (socket : Nat) (data : Slice)
  | c4socket_closeRequested (socket : Nat) (status : Int) (message : Slice)
  | c4socket_closed (socket : Nat) (error : C4Error)
  | c4socket_release (socket : Nat)
deriving DecidableEq

/-- What the Java VM answers on the calling thread while one callback runs:
the status of `GetEnv`, the result of `attachCurrentThread`, the result of
`DetachCurrentThread`, and whether the managed method throws.  A managed
exception stays pending in the environment and `CallStaticVoidMethod`
returns to the bridge as usual, and the callbacks never ask for it.
`exceptionPending` says whether an exception is pending already in the
environment the callback acquires: what `ExceptionCheck` answers there. -/
structure JvmReplies where
  getEnvStat : Int
  attachStat : Int
  detachStat : Int
  managedThrows : Bool
  exceptionPending : Bool := false
deriving DecidableEq

/-! ## The C4SocketFactory callbacks (native to managed) -/

/-- The callback `socket_open`. -/
def socket_open (jvm : JvmReplies) (socket : Nat) (addr : C4Address) (options : Slice)
    (socketFactoryContext : Nat) : List Action :=
  [Action.GetEnv] ++
  if jvm.getEnvStat = JNI_OK then
    [Action.CallStaticVoidMethod EnvOrigin.fromGetEnv JMethod.m_C4Socket_open
      [JValue.jlong (toJLong socket),
       JValue.jobject socketFactoryContext,
       JValue.toJString addr.scheme,
       JValue.toJString addr.hostname,
       JValue.jint addr.port,
       JValue.toJString addr.path,
       JValue.toJByteArray options]]
  else if jvm.getEnvStat = JNI_EDETACHED then
    [Action.attachCurrentThread] ++
    if jvm.attachStat = 0 then
      [Action.CallStaticVoidMethod EnvOrigin.fromAttach JMethod.m_C4Socket_open
        [JValue.jlong (toJLong socket),
         JValue.jobject socketFactoryContext,
         JValue.toJString addr.scheme,
         JValue.toJString addr.hostname,
         JValue.jint addr.port,
         JValue.toJString addr.path,
         JValue.toJByteArray options],
       Action.DetachCurrentThread] ++
      if jvm.detachStat ≠ 0 then
        [Action.C4Warn "socket_open(): Failed to detach the current thread from a Java VM" []]
      else []
    else
      [Action.C4Warn "socket_open(): Failed to attaches the current thread to a Java VM" []]
  else
    [Action.C4Warn "socket_open(): Failed to get the environment: getEnvStat -> %d"
      [jvm.getEnvStat]]

/-- The callback `socket_write`. -/
def socket_write (jvm : JvmReplies) (socket : Nat) (allocatedData : Slice) : List Action :=
  [Action.GetEnv] ++
  (if jvm.getEnvStat = JNI_OK then
    [Action.CallStaticVoidMethod EnvOrigin.fromGetEnv JMethod.m_C4Socket_write
      [JValue.jlong (toJLong socket), JValue.toJByteArray allocatedData]]
  else if jvm.getEnvStat = JNI_EDETACHED then
    [Action.attachCurrentThread] ++
    if jvm.attachStat = 0 then
      [Action.CallStaticVoidMethod EnvOrigin.fromAttach JMethod.m_C4Socket_write
        [JValue.jlong (toJLong socket), JValue.toJByteArray allocatedData],
       Action.DetachCurrentThread] ++
      if jvm.detachStat ≠ 0 then
        [Action.C4Warn "socket_write(): Failed to detach the current thread from a Java VM" []]
      else []
    else
      [Action.C4Warn "socket_write(): Failed to attaches the current thread to a Java VM" []]
  else
    [Action.C4Warn "socket_write(): Failed to get the environment: getEnvStat -> %d"
      [jvm.getEnvStat]]) ++
  [Action.c4slice_free allocatedData]

/-- The callback `socket_completedReceive`. -/
def socket_completedReceive (jvm : JvmReplies) (socket : Nat) (byteCount : Nat) : List Action :=
  [Action.GetEnv] ++
  if jvm.getEnvStat = JNI_OK then
    [Action.CallStaticVoidMethod EnvOrigin.fromGetEnv JMethod.m_C4Socket_completedReceive
      [JValue.jlong (toJLong socket), JValue.jlong (toJLong byteCount)]]
  else if jvm.getEnvStat = JNI_EDETACHED then
    [Action.attachCurrentThread] ++
    if jvm.attachStat = 0 then
      [Action.CallStaticVoidMethod EnvOrigin.fromAttach JMethod.m_C4Socket_completedReceive
        [JValue.jlong (toJLong socket), JValue.jlong (toJLong byteCount)],
       Action.DetachCurrentThread] ++
      if jvm.detachStat ≠ 0 then
        [Action.C4Warn
          "socket_completedReceive(): Failed to detach the current thread from a Java VM" []]
      else []
    else
      [Action.C4Warn
        "socket_completedReceive(): Failed to attaches the current thread to a Java VM" []]
  else
    [Action.C4Warn "socket_completedReceive(): Failed to get the environment: getEnvStat -> %d"
      [jvm.getEnvStat]]

/-- The callback `socket_requestClose`. -/
def socket_requestClose (jvm : JvmReplies) (socket : Nat) (status : Int)
    (messageSlice : Slice) : List Action :=
  [Action.GetEnv] ++
  if jvm.getEnvStat = JNI_OK then
    [Action.CallStaticVoidMethod EnvOrigin.fromGetEnv JMethod.m_C4Socket_requestClose
      [JValue.jlong (toJLong socket), JValue.jint (toJInt status), JValue.toJString messageSlice]]
  else if jvm.getEnvStat = JNI_EDETACHED then
    [Action.attachCurrentThread] ++
    if jvm.attachStat = 0 then
      [Action.CallStaticVoidMethod EnvOrigin.fromAttach JMethod.m_C4Socket_requestClose
        [JValue.jlong (toJLong socket), JValue.jint (toJInt status),
         JValue.toJString messageSlice],
       Action.DetachCurrentThread] ++
      if jvm.detachStat ≠ 0 then
        [Action.C4Warn
          "socket_requestClose(): Failed to detach the current thread from a Java VM" []]
      else []
    else
      [Action.C4Warn
        "socket_requestClose(): Failed to attaches the current thread to a Java VM" []]
  else
    [Action.C4Warn "socket_requestClose(): Failed to get the environment: getEnvStat -> %d"
      [jvm.getEnvStat]]

/-- The callback `socket_close`. -/
def socket_close (jvm : JvmReplies) (socket : Nat) : List Action :=
  [Action.GetEnv] ++
  if jvm.getEnvStat = JNI_OK then
    [Action.CallStaticVoidMethod EnvOrigin.fromGetEnv JMethod.m_C4Socket_close
      [JValue.jlong (toJLong socket)]]
  else if jvm.getEnvStat = JNI_EDETACHED then
    [Action.attachCurrentThread] ++
    if jvm.attachStat = 0 then
      [Action.CallStaticVoidMethod EnvOrigin.fromAttach JMethod.m_C4Socket_close
        [JValue.jlong (toJLong socket)],
       Action.DetachCurrentThread] ++
      if jvm.detachStat ≠ 0 then
        [Action.C4Warn "socket_close(): Failed to detach the current thread from a Java VM" []]
      else []
    else
      [Action.C4Warn "socket_close(): Failed to attaches the current thread to a Java VM" []]
  else
    [Action.C4Warn "socket_close(): Failed to get the environment: getEnvStat -> %d"
      [jvm.getEnvStat]]

/-- A native socket event: the engine calling one entry of `kSocketFactory`
with its arguments. -/
inductive SocketEvent where
  | evOpen (socket : Nat) (addr : C4Address) (options : Slice) (socketFactoryContext : Nat)
  | evWrite (socket : Nat) (allocatedData : Slice)
  | evCompletedReceive (socket : Nat) (byteCount : Nat)
  | evRequestClose (socket : Nat) (status : Int) (messageSlice : Slice)
  | evClose (socket : Nat)
deriving DecidableEq

/-- The table `kSocketFactory`: which callback the engine reaches for an event. -/
def kSocketFactory (jvm : JvmReplies) : SocketEvent → List Action
  | SocketEvent.evOpen socket addr options ctx => socket_open jvm socket addr options ctx
  | SocketEvent.evWrite socket data => socket_write jvm socket data
  | SocketEvent.evCompletedReceive socket n => socket_completedReceive jvm socket n
  | SocketEvent.evRequestClose socket status msg => socket_requestClose jvm socket status msg
  | SocketEvent.evClose socket => socket_close jvm socket

/-! ## The JNI entry points (managed to native) -/

/-- What the headers outside `src/` fix: the width in bits of the unsigned
integer type under the enumeration `C4ErrorDomain` (c4Base.h), and the
conversion `jstringSlice` of native_glue from a managed string to the bytes
of a slice. -/
structure Glue where
  errorDomainBits : Nat
  jstringSlice : JString → Slice

/-- The cast `(C4Socket *) jSocket` of a managed long to a pointer. -/
def toPointer (jSocket : Int) : Nat :=
  (jSocket % 2 ^ 64).toNat

/-- The cast `(C4ErrorDomain) domain` of a `jint` to the enumeration, whose
underlying type is unsigned and `bits` wide. -/
def toC4ErrorDomain (bits : Nat) (domain : Int) : Int :=
  domain % 2 ^ bits

/-- The entry point `NativeC4Socket.retain`. -/
def Java_com_couchbase_lite_internal_core_impl_NativeC4Socket_retain
    (jSocket : Int) : List Action :=
  [Action.c4socket_retain (toPointer jSocket)]

/-- The entry point `NativeC4Socket.opened`. -/
def Java_com_couchbase_lite_internal_core_impl_NativeC4Socket_opened
    (jsocket : Int) : List Action :=
  [Action.c4socket_opened (toPointer jsocket)]

/-- The entry point `NativeC4Socket.closed`. -/
def Java_com_couchbase_lite_internal_core_impl_NativeC4Socket_closed
    (g : Glue) (jSocket : Int) (domain : Int) (code : Int) (message : JString) : List Action :=
  [Action.c4socket_closed (toPointer jSocket)
     (c4error_make (toC4ErrorDomain g.errorDomainBits domain) code (g.jstringSlice message)),
   Action.c4socket_release (toPointer jSocket)]

/-- What the engine header c4Socket.h, outside `src/`, fixes: the value of
the constant `kC4NoFraming` and the width in bits of the unsigned integer
type under the enumeration `C4SocketFraming`. -/
structure SocketHeaders where
  kC4NoFraming : Int
  framingBits : Nat

/-- The cast `(C4SocketFraming) jframing` of a `jint` to the enumeration,
whose underlying type is unsigned and `bits` wide. -/
def toC4SocketFraming (bits : Nat) (jframing : Int) : Int :=
  jframing % 2 ^ bits

/-- The cast of a `jint` to the `uint16_t` of the field `C4Address.port`. -/
def toUInt16 (jport : Int) : Nat :=
  (jport % 2 ^ 16).toNat

/-- The cast `(size_t) x` of a managed long. -/
def toSizeT (x : Int) : Nat :=
  (x % 2 ^ 64).toNat

/-- The function `socket_factory`, which returns the constant `kSocketFactory`. -/
def socket_factory (h : SocketHeaders) : C4SocketFactory :=
  { framing := h.kC4NoFraming
    context := 0
    open_ := some SocketCallback.socket_open
    write := some SocketCallback.socket_write
    completedReceive := some SocketCallback.socket_completedReceive
    close := some SocketCallback.socket_close
    requestClose := some SocketCallback.socket_requestClose
    dispose := none }

/-- The entry point `NativeC4Socket.fromNative`: its trace and the long it
returns.  `created` is the handle `c4socket_fromNative` answers with. -/
def Java_com_couchbase_lite_internal_core_impl_NativeC4Socket_fromNative
    (g : Glue) (h : SocketHeaders) (created : Nat)
    (jcontext : Int) (jscheme : JString) (jhost : JString) (jport : Int) (jpath : JString)
    (jframing : Int) : List Action × Int :=
  ([Action.c4socket_fromNative
      { socket_factory h with
        framing := toC4SocketFraming h.framingBits jframing
        context := toPointer jcontext }
      (toPointer jcontext)
      { scheme := g.jstringSlice jscheme
        hostname := g.jstringSlice jhost
        port := toUInt16 jport
        path := g.jstringSlice jpath }
      created],
   toJLong created)

/-- The entry point `NativeC4Socket.gotHTTPResponse`.  `jbyteArraySlice` is
the helper of native_glue that gives the bytes of a managed array as a
slice. -/
def Java_com_couchbase_lite_internal_core_impl_NativeC4Socket_gotHTTPResponse
    (jbyteArraySlice : List Nat → Slice) (socket : Int) (httpStatus : Int)
    (jresponseHeadersFleece : List Nat) : List Action :=
  [Action.c4socket_gotHTTPResponse (toPointer socket) httpStatus
    (jbyteArraySlice jresponseHeadersFleece)]

/-- The entry point `NativeC4Socket.completedWrite`. -/
def Java_com_couchbase_lite_internal_core_impl_NativeC4Socket_completedWrite
    (jSocket : Int) (jByteCount : Int) : List Action :=
  [Action.c4socket_completedWrite (toPointer jSocket) (toSizeT jByteCount)]

/-- The entry point `NativeC4Socket.received`. -/
def Java_com_couchbase_lite_internal_core_impl_NativeC4Socket_received
    (jbyteArraySlice : List Nat → Slice) (jSocket : Int) (jdata : List Nat) : List Action :=
  [Action.c4socket_received (toPointer jSocket) (jbyteArraySlice jdata)]

/-- A call the managed side makes on a handle, as far as the retain count is
concerned. -/
inductive ManagedCall where
  | retain (jSocket : Int)
  | closed (jSocket : Int) (domain : Int) (code : Int) (message : JString)
deriving DecidableEq

/-- The entry point a managed call reaches. -/
def managedEntry (g : Glue) : ManagedCall → List Action
  | ManagedCall.retain jSocket =>
      Java_com_couchbase_lite_internal_core_impl_NativeC4Socket_retain jSocket
  | ManagedCall.closed jSocket domain code message =>
      Java_com_couchbase_lite_internal_core_impl_NativeC4Socket_closed g jSocket domain code
        message

/-! ## Sequences of calls and what is observed of a trace -/

/-- The trace of a sequence of native events, each raised on a thread with
its own replies from the Java VM. -/
def runEvents : List (JvmReplies × SocketEvent) → List Action
  | [] => []
  | (jvm, ev) :: rest => kSocketFactory jvm ev ++ runEvents rest

/-- The trace of a sequence of managed calls. -/
def runManaged (g : Glue) : List ManagedCall → List Action
  | [] => []
  | c :: rest => managedEntry g c ++ runManaged g rest

/-- The managed method an event is forwarded to: the one of the same name. -/
def eventMethod : SocketEvent → JMethod
  | SocketEvent.evOpen _ _ _ _ => JMethod.m_C4Socket_open
  | SocketEvent.evWrite _ _ => JMethod.m_C4Socket_write
  | SocketEvent.evCompletedReceive _ _ => JMethod.m_C4Socket_completedReceive
  | SocketEvent.evRequestClose _ _ _ => JMethod.m_C4Socket_requestClose
  | SocketEvent.evClose _ => JMethod.m_C4Socket_close

/-- The socket handle of an event. -/
def eventSocket : SocketEvent → Nat
  | SocketEvent.evOpen socket _ _ _ => socket
  | SocketEvent.evWrite socket _ => socket
  | SocketEvent.evCompletedReceive socket _ => socket
  | SocketEvent.evRequestClose socket _ _ => socket
  | SocketEvent.evClose socket => socket

/-- The invocations of managed methods in a trace, in order: the environment
used, the method and the arguments. -/
def invocations : List Action → List (EnvOrigin × JMethod × List JValue)
  | [] => []
  | Action.CallStaticVoidMethod env method args :: rest => (env, method, args) :: invocations rest
  | _ :: rest => invocations rest

/-- The managed calls of a trace as the managed side tells them apart: the
method and its first argument, the handle. -/
def forwarded (trace : List Action) : List (JMethod × Option JValue) :=
  (invocations trace).map (fun c => (c.2.1, c.2.2.head?))

/-- The calls into the Java VM in a trace, in order. -/
def jvmCalls : List Action → List Action
  | [] => []
  | Action.GetEnv :: rest => Action.GetEnv :: jvmCalls rest
  | Action.attachCurrentThread :: rest => Action.attachCurrentThread :: jvmCalls rest
  | Action.CallStaticVoidMethod env method args :: rest =>
      Action.CallStaticVoidMethod env method args :: jvmCalls rest
  | Action.DetachCurrentThread :: rest => Action.DetachCurrentThread :: jvmCalls rest
  | _ :: rest => jvmCalls rest

/-- The warnings logged in a trace, in order. -/
def warnings : List Action → List (String × List Int)
  | [] => []
  | Action.C4Warn fmt args :: rest => (fmt, args) :: warnings rest
  | _ :: rest => warnings rest

/-- The engine calls made on socket handles in a trace, in order. -/
def socketCalls : List Action → List Action
  | [] => []
  | Action.c4socket_retain s :: rest => Action.c4socket_retain s :: socketCalls rest
  | Action.c4socket_opened s :: rest => Action.c4socket_opened s :: socketCalls rest
  | Action.c4socket_gotHTTPResponse s st h :: rest =>
      Action.c4socket_gotHTTPResponse s st h :: socketCalls rest
  | Action.c4socket_completedWrite s n :: rest =>
      Action.c4socket_completedWrite s n :: socketCalls rest
  | Action.c4socket_received s d :: rest => Action.c4socket_received s d :: socketCalls rest
  | Action.c4socket_closeRequested s st m :: rest =>
      Action.c4socket_closeRequested s st m :: socketCalls rest
  | Action.c4socket_closed s e :: rest => Action.c4socket_closed s e :: socketCalls rest
  | Action.c4socket_release s :: rest => Action.c4socket_release s :: socketCalls rest
  | _ :: rest => socketCalls rest

/-- The error records handed to `c4socket_closed` for a socket, in order. -/
def closedErrors (socket : Nat) : List Action → List C4Error
  | [] => []
  | Action.c4socket_closed s e :: rest =>
      if s = socket then e :: closedErrors socket rest else closedErrors socket rest
  | _ :: rest => closedErrors socket rest

/-- A runtime environment is available on the thread: it has one already, or
it is detached and attaching it succeeds. -/
def envAvailable (jvm : JvmReplies) : Prop :=
  jvm.getEnvStat = JNI_OK ∨ (jvm.getEnvStat = JNI_EDETACHED ∧ jvm.attachStat = 0)

instance (jvm : JvmReplies) : Decidable (envAvailable jvm) := by
  unfold envAvailable; infer_instance

/-- No runtime environment can be acquired: attaching a detached thread
fails, or `GetEnv` answers neither `JNI_OK` nor `JNI_EDETACHED`. -/
def envUnavailable (jvm : JvmReplies) : Prop :=
  (jvm.getEnvStat = JNI_EDETACHED ∧ jvm.attachStat ≠ 0) ∨
    (jvm.getEnvStat ≠ JNI_OK ∧ jvm.getEnvStat ≠ JNI_EDETACHED)

instance (jvm : JvmReplies) : Decidable (envUnavailable jvm) := by
  unfold envUnavailable; infer_instance

/-! ## Order of delivery, retain count, interleavings -/

/-- Every write, completedReceive and requestClose of the sequence has an
open before it. -/
def openPrecedes : List JMethod → Bool
  | [] => true
  | JMethod.m_C4Socket_open :: _ => true
  | JMethod.m_C4Socket_close :: rest => openPrecedes rest
  | _ :: _ => false

/-- The close of the sequence, if any, is its last element: there is at most
one and nothing follows it. -/
def closeIsLast : List JMethod → Bool
  | [] => true
  | JMethod.m_C4Socket_close :: rest => rest.isEmpty
  | _ :: rest => closeIsLast rest

/-- The order of section 4.3: open before every write, receive and
close-request; close at most once, last, and nothing after it. -/
def orderedTrace (t : List JMethod) : Bool :=
  openPrecedes t && closeIsLast t

/-- The methods delivered to the managed side for one socket handle, in order. -/
def delivered (socket : Nat) (trace : List Action) : List JMethod :=
  ((forwarded trace).filter
    (fun c => decide (c.2 = some (JValue.jlong (toJLong socket))))).map (fun c => c.1)

/-- Modelled from the spec: the retain count of a handle (section 4.4).  The
counter itself is kept by the engine behind `c4socket_retain` and
`c4socket_release`; it is 1 when the handle is created, a retain adds one
and a release takes one away. -/
def retainCount (socket : Nat) (trace : List Action) : Int :=
  1 + (trace.count (Action.c4socket_retain socket) : Int)
    - (trace.count (Action.c4socket_release socket) : Int)

/-- The number of `retain` calls of a sequence that are made on a socket. -/
def retainCalls (socket : Nat) : List ManagedCall → Nat
  | [] => 0
  | ManagedCall.retain jSocket :: rest =>
      (if toPointer jSocket = socket then 1 else 0) + retainCalls socket rest
  | ManagedCall.closed _ _ _ _ :: rest => retainCalls socket rest

/-- The number of `closed` calls of a sequence that are made on a socket. -/
def closedCalls (socket : Nat) : List ManagedCall → Nat
  | [] => 0
  | ManagedCall.retain _ :: rest => closedCalls socket rest
  | ManagedCall.closed jSocket _ _ _ :: rest =>
      (if toPointer jSocket = socket then 1 else 0) + closedCalls socket rest

/-- Whether `t` is a way the calls of two threads can take turns: a merge of
the traces `xs` and `ys` that keeps the order of each. -/
def isInterleaving : List Action → List Action → List Action → Bool
  | [], xs, ys => xs.isEmpty && ys.isEmpty
  | a :: t, xs, ys =>
      (match xs with
        | [] => false
        | x :: xs1 => decide (a = x) && isInterleaving t xs1 ys) ||
      (match ys with
        | [] => false
        | y :: ys1 => decide (a = y) && isInterleaving t xs ys1)

/-- The UTF-8 bytes of one character. -/
def utf8Char (c : Char) : List Nat :=
  if c.toNat < 128 then [c.toNat]
  else if c.toNat < 2048 then [192 + c.toNat / 64, 128 + c.toNat % 64]
  else if c.toNat < 65536 then
    [224 + c.toNat / 4096, 128 + c.toNat / 64 % 64, 128 + c.toNat % 64]
  else
    [240 + c.toNat / 262144, 128 + c.toNat / 4096 % 64, 128 + c.toNat / 64 % 64,
     128 + c.toNat % 64]

/-- The UTF-8 bytes of a text. -/
def utf8Bytes : List Char → List Nat
  | [] => []
  | c :: rest => utf8Char c ++ utf8Bytes rest

/-- Modelled from the spec: the parts of native_glue and of the engine
headers that `src/` does not hold, for use at concrete inputs.  The message
of a managed string is transcoded without loss to the UTF-8 bytes of a slice
(section 4.5), and the error domain is an unsigned 32-bit enumeration. -/
def utf8Glue : Glue :=
  { errorDomainBits := 32, jstringSlice := fun s => utf8Bytes s.toList }

/-- A thread that already has a runtime environment. -/
def attachedThread : JvmReplies :=
  { getEnvStat := 0, attachStat := 0, detachStat := 0, managedThrows := false }

/-- A detached thread on which attaching and detaching succeed. -/
def detachedThread : JvmReplies :=
  { getEnvStat := -2, attachStat := 0, detachStat := 0, managedThrows := false }

/-- A detached thread on which attaching fails. -/
def attachFailsThread : JvmReplies :=
  { getEnvStat := -2, attachStat := -1, detachStat := 0, managedThrows := false }

/-- A detached thread on which attaching succeeds and detaching fails. -/
def detachFailsThread : JvmReplies :=
  { getEnvStat := -2, attachStat := 0, detachStat := -1, managedThrows := false }

/-- A session of one socket in the order of section 4.3: open, write (on a
detached thread), close-request, close. -/
def orderedSession : List (JvmReplies × SocketEvent) :=
  [(attachedThread,
      SocketEvent.evOpen 4096
        { scheme := [119, 115, 115], hostname := [120], port := 443, path := [47] } [] 7),
   (detachedThread, SocketEvent.evWrite 4096 [1, 2, 3]),
   (attachedThread, SocketEvent.evRequestClose 4096 1000 []),
   (attachedThread, SocketEvent.evClose 4096)]

/-- A session of one socket out of order: close, then write. -/
def writeAfterClose : List (JvmReplies × SocketEvent) :=
  [(attachedThread, SocketEvent.evClose 4096),
   (attachedThread, SocketEvent.evWrite 4096 [1, 2, 3])]

/-- The handles `c4socket_fromNative` has answered with in a trace, in order. -/
def createdHandles : List Action → List Nat
  | [] => []
  | Action.c4socket_fromNative _ _ _ created :: rest => created :: createdHandles rest
  | _ :: rest => createdHandles rest

/-- The calls of `c4socket_fromNative` in a trace, in order: the factory, the
native handle and the address handed to the engine. -/
def fromNativeCalls : List Action → List (C4SocketFactory × Nat × C4Address)
  | [] => []
  | Action.c4socket_fromNative factory nativeHandle address _ :: rest =>
      (factory, nativeHandle, address) :: fromNativeCalls rest
  | _ :: rest => fromNativeCalls rest

/-- Modelled from the spec: the handle registry (sections 4.1 and 4.4), which
the code under `src/` does not keep.  A handle is in the registry from its
creation until the teardown, which runs when its retain count reaches zero. -/
def registered (socket : Nat) (trace : List Action) : Bool :=
  decide (socket ∈ createdHandles trace) && decide (0 < retainCount socket trace)

/-- The header constants used at concrete inputs: `kC4NoFraming` is 1 and
`C4SocketFraming` is eight bits wide. -/
def sampleHeaders : SocketHeaders :=
  { kC4NoFraming := 1, framingBits := 8 }

/-- The end-to-end scenario of section 8 for the handle `H` the engine
creates: creation for wss://x.example:443/db/_blipsync, open delivered,
write of 100 bytes, write-completed 100, receive of 50 bytes,
completedReceive 50, and closed with the given domain, code 1000 and an empty
message.  The three native events are raised on threads of their own. -/
def endToEndScenario (g : Glue) (h : SocketHeaders) (jbyteArraySlice : List Nat → Slice)
    (jvmOpen jvmWrite jvmReceive : JvmReplies) (H : Nat) (jcontext : Int) (jframing : Int)
    (options : Slice) (webSocketDomain : Int) : List Action :=
  (Java_com_couchbase_lite_internal_core_impl_NativeC4Socket_fromNative g h H jcontext
      "wss" "x.example" 443 "/db/_blipsync" jframing).1 ++
    socket_open jvmOpen H
      { scheme := g.jstringSlice "wss"
        hostname := g.jstringSlice "x.example"
        port := 443
        path := g.jstringSlice "/db/_blipsync" }
      options (toPointer jcontext) ++
    socket_write jvmWrite H (List.replicate 100 0) ++
    Java_com_couchbase_lite_internal_core_impl_NativeC4Socket_completedWrite (toJLong H) 100 ++
    Java_com_couchbase_lite_internal_core_impl_NativeC4Socket_received jbyteArraySlice
      (toJLong H) (List.replicate 50 0) ++
    socket_completedReceive jvmReceive H 50 ++
    Java_com_couchbase_lite_internal_core_impl_NativeC4Socket_closed g (toJLong H)
      webSocketDomain 1000 ""

end NativeC4Socket

/-! # The logging bridge (native_c4.cc) -/

namespace NativeC4

open NativeC4Socket

/-- One call made by `logCallback`: into the Java VM, the error log of the
bridge (`logError`), the engine or its logging sink (`C4Warn`).  The
invocation of the managed `C4Log.logCallback` carries its three arguments;
a `jstring` that is null is `none`. -/
inductive LogAction where
  | logError (fmt : String) (args : List Int)
  | GetEnv
  | attachCurrentThread
  | ExceptionCheck
  | UTF8ToJstring (chars : Slice)
  | c4log_getDomainName (domain : Nat)
  | NewStringUTF (chars : String)
  | CallStaticVoidMethod (domainName : Option JString) (level : Int) (message : JString)
  | DeleteLocalRef (ref : JString)
  | DetachCurrentThread
  | C4Warn (fmt : String)
deriving DecidableEq

/-- What `logCallback` gets from outside `src/`: the helper `UTF8ToJstring`
of native_glue, which answers null for bytes it cannot convert, the function
`NewStringUTF` of the Java VM, and the name the engine gives a log domain. -/
structure LogGlue where
  UTF8ToJstring : Slice → Option JString
  NewStringUTF : String → Option JString
  c4log_getDomainName : Nat → Slice

/-- The callback `logCallback`.  The two flags say whether the statics
`cls_C4Log` and `m_C4Log_logCallback` are set; `fmt` holds the bytes of the
C string. -/
def logCallback (cls_C4Log m_C4Log_logCallback : Bool) (jvm : JvmReplies) (g : LogGlue)
    (domain : Nat) (level : Int) (fmt : Slice) : List LogAction :=
  let afterEnv : List LogAction :=
    [LogAction.ExceptionCheck] ++
    if jvm.exceptionPending then
      [LogAction.logError "logCallback(): Cannot log while an exception is outstanding" []]
    else
      [LogAction.UTF8ToJstring fmt] ++
      match g.UTF8ToJstring fmt with
      | none => [LogAction.logError "logCallback(): Failed encoding error message" []]
      | some message =>
        let domainNameRaw := g.c4log_getDomainName domain
        let converted := g.UTF8ToJstring domainNameRaw
        let domainName := if converted.isNone then g.NewStringUTF "???" else converted
        [LogAction.c4log_getDomainName domain, LogAction.UTF8ToJstring domainNameRaw] ++
        (if converted.isNone then [LogAction.NewStringUTF "???"] else []) ++
        [LogAction.CallStaticVoidMethod domainName level message,
         LogAction.DeleteLocalRef message] ++
        (match domainName with
          | some d => [LogAction.DeleteLocalRef d]
          | none => []) ++
        (if jvm.getEnvStat = JNI_EDETACHED then
          [LogAction.DetachCurrentThread] ++
          if jvm.detachStat ≠ 0 then
            [LogAction.C4Warn
              "logCallback(): doRequestClose(): Failed to detach the current thread from a Java VM"]
          else []
        else [])
  if !cls_C4Log || !m_C4Log_logCallback then
    [LogAction.logError "logCallback(): Logging not initialized" []]
  else
    [LogAction.GetEnv] ++
    if jvm.getEnvStat = JNI_EDETACHED then
      [LogAction.attachCurrentThread] ++
      if jvm.attachStat ≠ 0 then
        [LogAction.logError "logCallback(): Failed to attach the current thread to a Java VM)" []]
      else afterEnv
    else if jvm.getEnvStat ≠ JNI_OK then
      [LogAction.logError "logCallback(): Failed to get the environment: getEnvStat -> %d"
        [jvm.getEnvStat]]
    else afterEnv

/-- The invocations of the managed `C4Log.logCallback` in a trace, in order. -/
def logInvocations : List LogAction → List (Option JString × Int × JString)
  | [] => []
  | LogAction.CallStaticVoidMethod domainName level message :: rest =>
      (domainName, level, message) :: logInvocations rest
  | _ :: rest => logInvocations rest

/-- The messages written to the error log of the bridge in a trace, in order. -/
def loggedErrors : List LogAction → List String
  | [] => []
  | LogAction.logError fmt _ :: rest => fmt :: loggedErrors rest
  | _ :: rest => loggedErrors rest

/-- A converter that cannot convert any bytes holding the byte 255, which no
UTF-8 text holds, and reads every other byte as one character. -/
def sampleLogGlue : LogGlue :=
  { UTF8ToJstring := fun s =>
      if 255 ∈ s then none else some (String.mk (s.map Char.ofNat))
    NewStringUTF := fun s => some s
    c4log_getDomainName := fun _ => [68, 66] }

/-- A converter that fails for the domain name only: the engine names the
domain with the byte 255. -/
def badDomainLogGlue : LogGlue :=
  { sampleLogGlue with c4log_getDomainName := fun _ => [255] }

/-! ## Log levels -/

/-- Modelled from the spec: the log domains the engine holds, each a name
with its level.  The functions `c4log_getDomain`, `c4log_getLevel` and
`c4log_setLevel` belong to the engine; they are taken as the comment on
`setLevel` describes them. -/
abbrev LogDomains := List (Slice × Int)

/-- The level the engine holds for a domain name, if it has that domain. -/
def levelOf : LogDomains → Slice → Option Int
  | [], _ => none
  | (n, l) :: rest, name => if n = name then some l else levelOf rest name

/-- The engine with the level of a domain name set, the domain added if the
engine has none of that name. -/
def withLevel : LogDomains → Slice → Int → LogDomains
  | [], name, l => [(name, l)]
  | (n, l0) :: rest, name, l =>
      if n = name then (n, l) :: rest else (n, l0) :: withLevel rest name l

/-- The engine function `c4log_getDomain(name, create)`: the domain of that
name if the engine has one; if not, a new domain at the default level when
`create` is set, and null otherwise.  A domain is told by its name. -/
def c4log_getDomain (defaultLevel : Int) (e : LogDomains) (name : Slice) (create : Bool) :
    LogDomains × Option Slice :=
  match levelOf e name with
  | some _ => (e, some name)
  | none => if create then (withLevel e name defaultLevel, some name) else (e, none)

/-- The engine function `c4log_getLevel`. -/
def c4log_getLevel (defaultLevel : Int) (e : LogDomains) (logDomain : Slice) : Int :=
  (levelOf e logDomain).getD defaultLevel

/-- The engine function `c4log_setLevel`. -/
def c4log_setLevel (e : LogDomains) (logDomain : Slice) (level : Int) : LogDomains :=
  withLevel e logDomain level

/-- The C string `c_str()` of a slice: its bytes up to the first zero byte. -/
def c_str (s : Slice) : Slice :=
  s.takeWhile (fun b => decide (b ≠ 0))

/-- The cast `(C4LogLevel) jlevel` of a `jint` to the enumeration, whose
underlying type is signed and `bits` wide. -/
def toC4LogLevel (bits : Nat) (jlevel : Int) : Int :=
  (jlevel + 2 ^ (bits - 1)) % 2 ^ bits - 2 ^ (bits - 1)

/-- What the engine header c4Base.h, outside `src/`, and the engine fix for
log levels: the width in bits of the signed integer type under the
enumeration `C4LogLevel`, and the level of a domain just created. -/
structure LogHeaders where
  levelBits : Nat
  defaultLevel : Int

/-- The entry point `C4Log.getLevel`: the engine after the call and the
level returned. -/
def Java_com_couchbase_lite_internal_core_C4Log_getLevel (h : LogHeaders)
    (jstringSlice : JString → Slice) (e : LogDomains) (jdomain : JString) : LogDomains × Int :=
  let domain := jstringSlice jdomain
  let found := c4log_getDomain h.defaultLevel e (c_str domain) false
  match found.2 with
  | none => (found.1, -1)
  | some logDomain => (found.1, c4log_getLevel h.defaultLevel found.1 logDomain)

/-- The entry point `C4Log.setLevel`: the engine after the call. -/
def Java_com_couchbase_lite_internal_core_C4Log_setLevel (h : LogHeaders)
    (jstringSlice : JString → Slice) (e : LogDomains) (jdomain : JString) (jlevel : Int) :
    LogDomains :=
  let domain := jstringSlice jdomain
  let found := c4log_getDomain h.defaultLevel e (c_str domain) true
  match found.2 with
  | none => found.1
  | some logDomain => c4log_setLevel found.1 logDomain (toC4LogLevel h.levelBits jlevel)

/-- The header facts used at concrete inputs: `C4LogLevel` is eight bits
wide and a new domain starts at level 2. -/
def sampleLogHeaders : LogHeaders :=
  { levelBits := 8, defaultLevel := 2 }

end NativeC4

/-! # The blob store bridge (native_c4blobstore.cc) -/

namespace NativeC4BlobStore

open NativeC4Socket

/-- The error record `C4Error` as the engine fills it in. -/
structure C4Error where
  domain : Int
  code : Int
  internal_info : Int
deriving DecidableEq

/-- One call made by an entry point of the blob store bridge: into the Java
VM, the engine, the C library, or the helpers `throwError` and `toJString` of
native_glue; `throwError` raises a managed error.  `c4stream_read` is
recorded with the offset into the buffer at which the engine is to write and
the number of bytes it may write. -/
inductive BlobAction where
  | GetArrayLength
  | throwError (error : C4Error)
  | GetByteArrayElements
  | c4stream_read (stream : Nat) (offset : Int) (size : Nat)
  | ReleaseByteArrayElements (mode : Int)
  | c4blob_getContents (store : Nat) (key : Nat)
  | c4blob_getFilePath (store : Nat) (key : Nat)
  | malloc
  | toJString (s : Slice)
  | c4slice_free (s : Slice)
deriving DecidableEq

/-- What the engine answers to `c4stream_read`: the number of bytes read and
what it leaves in the error record it is handed. -/
structure ReadReply where
  read : Nat
  error : C4Error

/-- A sum of a `jint` and a `jlong`, taken in 64 bits. -/
def add64 (a b : Int) : Int :=
  (a + b + 2 ^ 63) % 2 ^ 64 - 2 ^ 63

/-- The entry point `C4BlobReadStream.read`: its trace and the `jint` it
returns.  `bufSize` is what `GetArrayLength` answers for the buffer. -/
def Java_com_couchbase_lite_internal_core_C4BlobReadStream_read__J_3BIJ
    (bufSize : Int) (reply : ReadReply) (jstream : Int) (offset : Int) (jsize : Int) :
    List BlobAction × Int :=
  if add64 offset jsize > bufSize then
    ([BlobAction.GetArrayLength,
      BlobAction.throwError { domain := 0, code := 0, internal_info := 0 }], -1)
  else
    ([BlobAction.GetArrayLength,
      BlobAction.GetByteArrayElements,
      BlobAction.c4stream_read (toPointer jstream) offset (toSizeT jsize),
      BlobAction.ReleaseByteArrayElements 0],
     toJInt (reply.read : Int))

/-- The managed errors raised in a trace, in order. -/
def thrownErrors : List BlobAction → List C4Error
  | [] => []
  | BlobAction.throwError error :: rest => error :: thrownErrors rest
  | _ :: rest => thrownErrors rest

/-- The regions the engine is told to write in a trace: for each
`c4stream_read`, the offset into the buffer and the number of bytes. -/
def readRegions : List BlobAction → List (Int × Nat)
  | [] => []
  | BlobAction.c4stream_read _ offset size :: rest => (offset, size) :: readRegions rest
  | _ :: rest => readRegions rest

/-- A region of `size` bytes at `offset` lies inside a buffer of length `L`. -/
def insideBuffer (L : Int) (region : Int × Nat) : Prop :=
  0 ≤ region.1 ∧ region.1 + (region.2 : Int) ≤ L

instance (L : Int) (region : Int × Nat) : Decidable (insideBuffer L region) := by
  unfold insideBuffer; infer_instance

/-- What the engine answers to `c4blob_getContents` and `c4blob_getFilePath`:
the slice it returns and what it leaves in the error record it is handed,
which the bridge has set to zero. -/
structure SliceReply where
  res : Slice
  error : C4Error

/-- The entry point `C4BlobStore.getContents`: its trace and the long it
returns.  `allocated` is the address `malloc` answers with. -/
def Java_com_couchbase_lite_internal_core_C4BlobStore_getContents
    (reply : SliceReply) (allocated : Nat) (jblobstore : Int) (jblobkey : Int) :
    List BlobAction × Int :=
  if reply.error.domain ≠ 0 ∧ reply.error.code ≠ 0 then
    ([BlobAction.c4blob_getContents (toPointer jblobstore) (toPointer jblobkey),
      BlobAction.throwError reply.error], 0)
  else
    ([BlobAction.c4blob_getContents (toPointer jblobstore) (toPointer jblobkey),
      BlobAction.malloc],
     toJLong allocated)

/-- The entry point `C4BlobStore.getFilePath`: its trace and the string it
returns, null being `none`. -/
def Java_com_couchbase_lite_internal_core_C4BlobStore_getFilePath
    (reply : SliceReply) (jblobstore : Int) (jblobkey : Int) :
    List BlobAction × Option JValue :=
  if reply.error.domain ≠ 0 ∧ reply.error.code ≠ 0 then
    ([BlobAction.c4blob_getFilePath (toPointer jblobstore) (toPointer jblobkey),
      BlobAction.throwError reply.error], none)
  else
    ([BlobAction.c4blob_getFilePath (toPointer jblobstore) (toPointer jblobkey),
      BlobAction.toJString reply.res,
      BlobAction.c4slice_free reply.res],
     some (JValue.toJString reply.res))

end NativeC4BlobStore

/-! # The document enumerator bridge (native_c4docenumerator.cc) -/

namespace NativeC4DocEnumerator

open NativeC4Socket

/-- One call made by an entry point of the enumerator bridge: into the
engine, or the helper `throwError` of native_glue that raises a managed
error.  `c4db_enumerateChanges` is recorded with the database, the starting
sequence and the flags of the options. -/
inductive EnumAction where
  | c4db_enumerateChanges (database : Nat) (since : Nat) (flags : Int)
  | c4enum_next (e : Nat)
  | throwError (error : NativeC4BlobStore.C4Error)
deriving DecidableEq

/-- The cast `(uint16_t) since` of a managed long. -/
def toUInt16 (since : Int) : Nat :=
  (since % 2 ^ 16).toNat

/-- The cast `C4EnumeratorFlags(jflags)` of a `jint` to the option set, whose
underlying type is unsigned and `bits` wide. -/
def toC4EnumeratorFlags (bits : Nat) (jflags : Int) : Int :=
  jflags % 2 ^ bits

/-- The entry point `C4DocEnumerator.enumerateChanges`: its trace and the
long it returns.  `flagsBits` is the width of `C4EnumeratorFlags`, fixed by
the engine header; `e` is the enumerator the engine answers with, 0 for
null, and `error` what it leaves in the error record. -/
def Java_com_couchbase_lite_internal_core_C4DocEnumerator_enumerateChanges
    (flagsBits : Nat) (e : Nat) (error : NativeC4BlobStore.C4Error)
    (jdb : Int) (since : Int) (jflags : Int) : List EnumAction × Int :=
  if e = 0 then
    ([EnumAction.c4db_enumerateChanges (toPointer jdb) (toUInt16 since)
        (toC4EnumeratorFlags flagsBits jflags),
      EnumAction.throwError error], 0)
  else
    ([EnumAction.c4db_enumerateChanges (toPointer jdb) (toUInt16 since)
        (toC4EnumeratorFlags flagsBits jflags)],
     toJLong e)

/-- The entry point `C4DocEnumerator.next`: its trace and the boolean it
returns.  `res` is what `c4enum_next` answers and `error` what it leaves in
the error record, which the bridge has set to zero. -/
def Java_com_couchbase_lite_internal_core_C4DocEnumerator_next
    (res : Bool) (error : NativeC4BlobStore.C4Error) (handle : Int) :
    List EnumAction × Bool :=
  if res = false ∧ error.code ≠ 0 then
    ([EnumAction.c4enum_next (toPointer handle), EnumAction.throwError error], false)
  else
    ([EnumAction.c4enum_next (toPointer handle)], res)

/-- The starting sequences handed to `c4db_enumerateChanges` in a trace. -/
def startingSequences : List EnumAction → List Nat
  | [] => []
  | EnumAction.c4db_enumerateChanges _ since _ :: rest => since :: startingSequences rest
  | _ :: rest => startingSequences rest

/-- The managed errors raised in a trace, in order. -/
def raisedErrors : List EnumAction → List NativeC4BlobStore.C4Error
  | [] => []
  | EnumAction.throwError error :: rest => error :: raisedErrors rest
  | _ :: rest => raisedErrors rest

end NativeC4DocEnumerator

namespace NativeC4Socket

/-! ## Acquiring the runtime environment (C7 to C10) -/

/-- C7: for each of the five socket callbacks, when `GetEnv` returns `JNI_OK`
the managed method of the event is invoked exactly once, with the environment
`GetEnv` supplied and with the socket handle as first argument, and neither
`attachCurrentThread` nor `DetachCurrentThread` is called. -/
theorem env_present_invokes_once_without_attach (jvm : JvmReplies) (ev : SocketEvent)
    (hOk : jvm.getEnvStat = JNI_OK) :
    (∃ args, invocations (kSocketFactory jvm ev) =
        [(EnvOrigin.fromGetEnv, eventMethod ev,
          JValue.jlong (toJLong (eventSocket ev)) :: args)]) ∧
      (kSocketFactory jvm ev).count Action.attachCurrentThread = 0 ∧
      (kSocketFactory jvm ev).count Action.DetachCurrentThread = 0 := by
  cases ev <;>
    simp [kSocketFactory, socket_open, socket_write, socket_completedReceive,
      socket_requestClose, socket_close, hOk, invocations, eventMethod, eventSocket]

/-- C7, at a concrete input: `socket_close` on a thread that has an environment. -/
theorem env_present_invokes_once_without_attach_witness :
    (∃ args, invocations (kSocketFactory attachedThread (SocketEvent.evClose 4096)) =
        [(EnvOrigin.fromGetEnv, eventMethod (SocketEvent.evClose 4096),
          JValue.jlong (toJLong (eventSocket (SocketEvent.evClose 4096))) :: args)]) ∧
      (kSocketFactory attachedThread (SocketEvent.evClose 4096)).count
        Action.attachCurrentThread = 0 ∧
      (kSocketFactory attachedThread (SocketEvent.evClose 4096)).count
        Action.DetachCurrentThread = 0 :=
  env_present_invokes_once_without_attach attachedThread (SocketEvent.evClose 4096) rfl

/-- C8: for each of the five socket callbacks, when `GetEnv` returns
`JNI_EDETACHED` and attaching succeeds, the calls into the Java VM after that
`GetEnv` are exactly: attach, one invocation of the managed method of the event
with the attached environment, detach, in that order; this is so whether or
not the managed method throws. -/
theorem detached_thread_attach_invoke_detach (jvm : JvmReplies) (ev : SocketEvent)
    (hDetached : jvm.getEnvStat = JNI_EDETACHED) (hAttach : jvm.attachStat = 0)
    (throws : Bool) :
    ∃ args, jvmCalls (kSocketFactory { jvm with managedThrows := throws } ev) =
      [Action.GetEnv,
       Action.attachCurrentThread,
       Action.CallStaticVoidMethod EnvOrigin.fromAttach (eventMethod ev)
         (JValue.jlong (toJLong (eventSocket ev)) :: args),
       Action.DetachCurrentThread] := by
  cases ev <;> by_cases hd : jvm.detachStat = 0 <;>
    simp [kSocketFactory, socket_open, socket_write, socket_completedReceive,
      socket_requestClose, socket_close, hDetached, hAttach, hd, jvmCalls, eventMethod,
      eventSocket, JNI_OK, JNI_EDETACHED]

/-- C8, at a concrete input: `socket_write` of three bytes on a detached
thread, the managed method throwing. -/
theorem detached_thread_attach_invoke_detach_witness :
    ∃ args, jvmCalls (kSocketFactory { detachedThread with managedThrows := true }
        (SocketEvent.evWrite 4096 [1, 2, 3])) =
      [Action.GetEnv,
       Action.attachCurrentThread,
       Action.CallStaticVoidMethod EnvOrigin.fromAttach
         (eventMethod (SocketEvent.evWrite 4096 [1, 2, 3]))
         (JValue.jlong (toJLong (eventSocket (SocketEvent.evWrite 4096 [1, 2, 3]))) :: args),
       Action.DetachCurrentThread] :=
  detached_thread_attach_invoke_detach detachedThread (SocketEvent.evWrite 4096 [1, 2, 3])
    rfl rfl true

/-- C9: for each of the five socket callbacks, if no runtime environment can
be acquired (attaching fails, or `GetEnv` answers neither `JNI_OK` nor
`JNI_EDETACHED`), the managed method is not invoked, exactly one warning is
logged, and no engine call is made on a socket handle (no close, closed or
release among them). -/
theorem env_unavailable_drops_event (jvm : JvmReplies) (ev : SocketEvent)
    (hNone : envUnavailable jvm) :
    invocations (kSocketFactory jvm ev) = [] ∧
      (warnings (kSocketFactory jvm ev)).length = 1 ∧
      socketCalls (kSocketFactory jvm ev) = [] := by
  rcases hNone with ⟨hd, ha⟩ | ⟨h1, h2⟩
  · cases ev <;>
      simp [kSocketFactory, socket_open, socket_write, socket_completedReceive,
        socket_requestClose, socket_close, hd, ha, invocations, warnings, socketCalls,
        JNI_OK, JNI_EDETACHED]
  · cases ev <;>
      simp [kSocketFactory, socket_open, socket_write, socket_completedReceive,
        socket_requestClose, socket_close, h1, h2, invocations, warnings, socketCalls]

/-- C9, at a concrete input: `socket_requestClose` on a detached thread whose
attachment fails with -1. -/
theorem env_unavailable_drops_event_witness :
    envUnavailable attachFailsThread ∧
      invocations (kSocketFactory attachFailsThread (SocketEvent.evRequestClose 4096 1000 [])) = [] ∧
      (warnings (kSocketFactory attachFailsThread
        (SocketEvent.evRequestClose 4096 1000 []))).length = 1 ∧
      socketCalls (kSocketFactory attachFailsThread (SocketEvent.evRequestClose 4096 1000 [])) = [] :=
  ⟨by decide,
   env_unavailable_drops_event attachFailsThread (SocketEvent.evRequestClose 4096 1000 [])
     (by decide)⟩

/-- C10: for each of the five socket callbacks, when the thread was attached,
the managed method was invoked and detaching then fails, the callback still
runs to its end: its trace is `GetEnv`, attach, the one invocation of the
managed method, the detach, one warning, and after that nothing but the
release of the data buffer (`socket_write`).  The managed method has been
invoked exactly once, one warning is logged, and no engine call is made on a
socket handle. -/
theorem detach_failure_only_warns (jvm : JvmReplies) (ev : SocketEvent)
    (hDetached : jvm.getEnvStat = JNI_EDETACHED) (hAttach : jvm.attachStat = 0)
    (hDetach : jvm.detachStat ≠ 0) :
    (∃ args fmt rest, kSocketFactory jvm ev =
        [Action.GetEnv,
         Action.attachCurrentThread,
         Action.CallStaticVoidMethod EnvOrigin.fromAttach (eventMethod ev) args,
         Action.DetachCurrentThread,
         Action.C4Warn fmt []] ++ rest ∧
        ∀ a ∈ rest, ∃ data, a = Action.c4slice_free data) ∧
      (invocations (kSocketFactory jvm ev)).length = 1 ∧
      (warnings (kSocketFactory jvm ev)).length = 1 ∧
      socketCalls (kSocketFactory jvm ev) = [] := by
  cases ev <;>
    simp [kSocketFactory, socket_open, socket_write, socket_completedReceive,
      socket_requestClose, socket_close, hDetached, hAttach, hDetach, invocations, warnings,
      socketCalls, eventMethod, JNI_OK, JNI_EDETACHED] <;>
    exact ⟨_, _, _, ⟨rfl, rfl, rfl⟩, by simp⟩

/-- C10, at a concrete input: `socket_completedReceive` on a detached thread
whose detachment fails with -1. -/
theorem detach_failure_only_warns_witness :
    (∃ args fmt rest, kSocketFactory detachFailsThread (SocketEvent.evCompletedReceive 4096 50) =
        [Action.GetEnv,
         Action.attachCurrentThread,
         Action.CallStaticVoidMethod EnvOrigin.fromAttach
           (eventMethod (SocketEvent.evCompletedReceive 4096 50)) args,
         Action.DetachCurrentThread,
         Action.C4Warn fmt []] ++ rest ∧
        ∀ a ∈ rest, ∃ data, a = Action.c4slice_free data) ∧
      (invocations (kSocketFactory detachFailsThread
        (SocketEvent.evCompletedReceive 4096 50))).length = 1 ∧
      (warnings (kSocketFactory detachFailsThread
        (SocketEvent.evCompletedReceive 4096 50))).length = 1 ∧
      socketCalls (kSocketFactory detachFailsThread (SocketEvent.evCompletedReceive 4096 50)) = [] :=
  detach_failure_only_warns detachFailsThread (SocketEvent.evCompletedReceive 4096 50)
    rfl rfl (by decide)

/-! ## Forwarding of event sequences (C1, C2) -/

theorem invocations_append (a b : List Action) :
    invocations (a ++ b) = invocations a ++ invocations b := by
  induction a with
  | nil => rfl
  | cons x xs ih => cases x <;> simp [invocations, ih]

theorem forwarded_append (a b : List Action) :
    forwarded (a ++ b) = forwarded a ++ forwarded b := by
  simp [forwarded, invocations_append]

theorem forwarded_callback (jvm : JvmReplies) (ev : SocketEvent) (h : envAvailable jvm) :
    forwarded (kSocketFactory jvm ev) =
      [(eventMethod ev, some (JValue.jlong (toJLong (eventSocket ev))))] := by
  rcases h with hOk | ⟨hd, ha⟩
  · cases ev <;>
      simp [forwarded, kSocketFactory, socket_open, socket_write, socket_completedReceive,
        socket_requestClose, socket_close, hOk, invocations, eventMethod, eventSocket]
  · cases ev <;> by_cases hdet : jvm.detachStat = 0 <;>
      simp [forwarded, kSocketFactory, socket_open, socket_write, socket_completedReceive,
        socket_requestClose, socket_close, hd, ha, hdet, invocations, eventMethod, eventSocket,
        JNI_OK, JNI_EDETACHED]

theorem forwarded_runEvents (evs : List (JvmReplies × SocketEvent))
    (h : ∀ p ∈ evs, envAvailable p.1) :
    forwarded (runEvents evs) =
      evs.map (fun p => (eventMethod p.2, some (JValue.jlong (toJLong (eventSocket p.2))))) := by
  induction evs with
  | nil => rfl
  | cons p rest ih =>
    obtain ⟨jvm, ev⟩ := p
    have h1 : envAvailable jvm := h (jvm, ev) (List.mem_cons_self _ _)
    have h2 : ∀ q ∈ rest, envAvailable q.1 := fun q hq => h q (List.mem_cons_of_mem _ hq)
    simp [runEvents, forwarded_append, forwarded_callback jvm ev h1, ih h2]

/-- C1: for every finite sequence of native socket events raised on threads
where a runtime environment is available, the managed invocations the five
callbacks make are the one-to-one image of the event sequence: as many as
there are events, in the same order, each event as the managed method of the
same name with the same socket handle as first argument. -/
theorem forwarding_preserves_event_sequence (evs : List (JvmReplies × SocketEvent))
    (hEnv : ∀ p ∈ evs, envAvailable p.1) :
    forwarded (runEvents evs) =
        evs.map (fun p => (eventMethod p.2, some (JValue.jlong (toJLong (eventSocket p.2))))) ∧
      (invocations (runEvents evs)).length = evs.length := by
  have h := forwarded_runEvents evs hEnv
  refine ⟨h, ?_⟩
  have hl := congrArg List.length h
  simpa [forwarded] using hl

/-- C1, at a concrete input: open, write, close-request and close of one
socket, the write on a detached thread. -/
theorem forwarding_preserves_event_sequence_witness :
    forwarded (runEvents orderedSession) =
        orderedSession.map
          (fun p => (eventMethod p.2, some (JValue.jlong (toJLong (eventSocket p.2))))) ∧
      (invocations (runEvents orderedSession)).length = orderedSession.length :=
  forwarding_preserves_event_sequence orderedSession (by decide)

/-- C2, as stated, fails: asked to forward close and then write for one
socket, the bridge delivers close and then write, a trace in which an event
follows the close and no open precedes the write. -/
theorem delivery_order_not_enforced :
    delivered 4096 (runEvents writeAfterClose) =
        [JMethod.m_C4Socket_close, JMethod.m_C4Socket_write] ∧
      orderedTrace (delivered 4096 (runEvents writeAfterClose)) = false := by
  decide

/-- C2, amended: for every socket handle and every sequence of events raised
for it on threads where a runtime environment is available, in whatever
order, the methods delivered for the handle are the methods of the events, in
the same order; so the delivered trace is in the order of section 4.3 (open
before every write, receive and close-request; close at most once and last)
exactly when the engine raises the events in that order. -/
theorem delivery_keeps_engine_order (socket : Nat) (evs : List (JvmReplies × SocketEvent))
    (hEnv : ∀ p ∈ evs, envAvailable p.1)
    (hSocket : ∀ p ∈ evs, eventSocket p.2 = socket) :
    delivered socket (runEvents evs) = evs.map (fun p => eventMethod p.2) ∧
      orderedTrace (delivered socket (runEvents evs)) =
        orderedTrace (evs.map (fun p => eventMethod p.2)) := by
  have hd : delivered socket (runEvents evs) = evs.map (fun p => eventMethod p.2) := by
    unfold delivered
    rw [forwarded_runEvents evs hEnv]
    clear hEnv
    induction evs with
    | nil => rfl
    | cons p rest ih =>
      have h1 : eventSocket p.2 = socket := hSocket p (List.mem_cons_self _ _)
      have h2 : ∀ q ∈ rest, eventSocket q.2 = socket :=
        fun q hq => hSocket q (List.mem_cons_of_mem _ hq)
      have ih2 := ih h2
      simp only [List.map_cons, List.filter_cons, h1, decide_True, if_true]
      rw [ih2]
  exact ⟨hd, by rw [hd]⟩

/-- C2 amended, at a concrete input: open, write, close-request and close of
one socket, an ordered sequence that is delivered in order. -/
theorem delivery_keeps_engine_order_witness :
    orderedTrace (orderedSession.map (fun p => eventMethod p.2)) = true ∧
      delivered 4096 (runEvents orderedSession) =
        orderedSession.map (fun p => eventMethod p.2) ∧
      orderedTrace (delivered 4096 (runEvents orderedSession)) =
        orderedTrace (orderedSession.map (fun p => eventMethod p.2)) :=
  ⟨by decide, delivery_keeps_engine_order 4096 orderedSession (by decide) (by decide)⟩

/-! ## The managed-side `closed` call and the retain count (C3 to C6) -/

/-- C3: for every socket handle, domain, code and message, the managed-side
call `closed(handle, domain, code, message)` calls `c4socket_closed` on that
handle with the error built from domain, code and message, then calls
`c4socket_release` on the same handle, exactly once and in that order, and
makes no other call. -/
theorem closed_calls_closed_then_release (g : Glue) (jSocket domain code : Int)
    (message : JString) :
    Java_com_couchbase_lite_internal_core_impl_NativeC4Socket_closed g jSocket domain code
        message =
        [Action.c4socket_closed (toPointer jSocket)
           (c4error_make (toC4ErrorDomain g.errorDomainBits domain) code
             (g.jstringSlice message)),
         Action.c4socket_release (toPointer jSocket)] ∧
      (Java_com_couchbase_lite_internal_core_impl_NativeC4Socket_closed g jSocket domain code
        message).count (Action.c4socket_release (toPointer jSocket)) = 1 := by
  simp [Java_com_couchbase_lite_internal_core_impl_NativeC4Socket_closed]

theorem count_append_int (a : Action) (l₁ l₂ : List Action) :
    ((l₁ ++ l₂).count a : Int) = (l₁.count a : Int) + (l₂.count a : Int) := by
  rw [List.count_append]; push_cast; rfl

theorem retainCount_runManaged (g : Glue) (socket : Nat) (calls : List ManagedCall) :
    retainCount socket (runManaged g calls) =
      1 + (retainCalls socket calls : Int) - (closedCalls socket calls : Int) := by
  induction calls with
  | nil => simp [runManaged, retainCount, retainCalls, closedCalls]
  | cons c rest ih =>
    unfold retainCount at ih ⊢
    cases c with
    | retain j =>
      by_cases h : toPointer j = socket
      · simp [runManaged, managedEntry, retainCalls, closedCalls, h,
          Java_com_couchbase_lite_internal_core_impl_NativeC4Socket_retain,
          List.count_cons] at ih ⊢
        omega
      · simp [runManaged, managedEntry, retainCalls, closedCalls, h,
          Java_com_couchbase_lite_internal_core_impl_NativeC4Socket_retain,
          List.count_cons] at ih ⊢
        omega
    | closed j d c m =>
      by_cases h : toPointer j = socket
      · simp [runManaged, managedEntry, retainCalls, closedCalls, h,
          Java_com_couchbase_lite_internal_core_impl_NativeC4Socket_closed,
          List.count_cons] at ih ⊢
        omega
      · simp [runManaged, managedEntry, retainCalls, closedCalls, h,
          Java_com_couchbase_lite_internal_core_impl_NativeC4Socket_closed,
          List.count_cons] at ih ⊢
        omega

theorem releases_runManaged (g : Glue) (socket : Nat) (calls : List ManagedCall) :
    (runManaged g calls).count (Action.c4socket_release socket) = closedCalls socket calls := by
  induction calls with
  | nil => simp [runManaged, closedCalls]
  | cons c rest ih =>
    cases c with
    | retain j =>
      simp [runManaged, managedEntry, closedCalls, ih,
        Java_com_couchbase_lite_internal_core_impl_NativeC4Socket_retain, List.count_cons]
    | closed j d c m =>
      by_cases h : toPointer j = socket
      · simp [runManaged, managedEntry, closedCalls, ih, h,
          Java_com_couchbase_lite_internal_core_impl_NativeC4Socket_closed, List.count_cons]
        omega
      · simp [runManaged, managedEntry, closedCalls, ih, h,
          Java_com_couchbase_lite_internal_core_impl_NativeC4Socket_closed, List.count_cons]

theorem retains_runManaged (g : Glue) (socket : Nat) (calls : List ManagedCall) :
    (runManaged g calls).count (Action.c4socket_retain socket) = retainCalls socket calls := by
  induction calls with
  | nil => simp [runManaged, retainCalls]
  | cons c rest ih =>
    cases c with
    | retain j =>
      by_cases h : toPointer j = socket
      · simp [runManaged, managedEntry, retainCalls, ih, h,
          Java_com_couchbase_lite_internal_core_impl_NativeC4Socket_retain, List.count_cons]
        omega
      · simp [runManaged, managedEntry, retainCalls, ih, h,
          Java_com_couchbase_lite_internal_core_impl_NativeC4Socket_retain, List.count_cons]
    | closed j d c m =>
      simp [runManaged, managedEntry, retainCalls, ih,
        Java_com_couchbase_lite_internal_core_impl_NativeC4Socket_closed, List.count_cons]

theorem socketCalls_runManaged (g : Glue) (calls : List ManagedCall) :
    socketCalls (runManaged g calls) = runManaged g calls := by
  induction calls with
  | nil => rfl
  | cons c rest ih =>
    cases c <;>
      simp [runManaged, managedEntry, socketCalls, ih,
        Java_com_couchbase_lite_internal_core_impl_NativeC4Socket_retain,
        Java_com_couchbase_lite_internal_core_impl_NativeC4Socket_closed]

/-- C4, as stated, fails: two `closed` calls on a handle that was never
retained are both passed on as `c4socket_release`, the second on a handle
whose count is zero already; the count ends at -1 and the trace holds no
report, only the engine calls. -/
theorem second_release_passed_on :
    runManaged utf8Glue [ManagedCall.closed 4096 6 1000 "", ManagedCall.closed 4096 6 1000 ""] =
        [Action.c4socket_closed 4096 (c4error_make 6 1000 []),
         Action.c4socket_release 4096,
         Action.c4socket_closed 4096 (c4error_make 6 1000 []),
         Action.c4socket_release 4096] ∧
      retainCount 4096 (runManaged utf8Glue [ManagedCall.closed 4096 6 1000 ""]) = 0 ∧
      retainCount 4096
        (runManaged utf8Glue
          [ManagedCall.closed 4096 6 1000 "", ManagedCall.closed 4096 6 1000 ""]) = -1 := by
  decide

/-- C4, amended: for every sequence of retain and closed calls, the bridge
passes every retain on as one `c4socket_retain` and every closed as one
`c4socket_release`, whatever the count is, and makes only engine calls on
socket handles (nothing is reported or logged).  The retain count of a handle
after the sequence is 1 plus its retains minus its closed calls: it is
non-negative exactly when the closed calls are at most one more than the
retains. -/
theorem retain_count_follows_calls (g : Glue) (socket : Nat) (calls : List ManagedCall) :
    retainCount socket (runManaged g calls) =
        1 + (retainCalls socket calls : Int) - (closedCalls socket calls : Int) ∧
      (0 ≤ retainCount socket (runManaged g calls) ↔
        closedCalls socket calls ≤ 1 + retainCalls socket calls) ∧
      (runManaged g calls).count (Action.c4socket_retain socket) = retainCalls socket calls ∧
      (runManaged g calls).count (Action.c4socket_release socket) = closedCalls socket calls ∧
      socketCalls (runManaged g calls) = runManaged g calls := by
  refine ⟨retainCount_runManaged g socket calls, ?_, retains_runManaged g socket calls,
    releases_runManaged g socket calls, socketCalls_runManaged g calls⟩
  rw [retainCount_runManaged]
  omega

theorem isInterleaving_right (ys : List Action) : isInterleaving ys [] ys = true := by
  induction ys with
  | nil => rfl
  | cons y ys ih => simp [isInterleaving, ih]

theorem isInterleaving_append (xs ys : List Action) :
    isInterleaving (xs ++ ys) xs ys = true := by
  induction xs with
  | nil => exact isInterleaving_right ys
  | cons x xs ih => simp [isInterleaving, ih]

/-- C6: for every domain D that the enumeration `C4ErrorDomain` holds, every
code C and every message text M passed to the managed-side `closed` call,
the one error record handed to `c4socket_closed` has domain D, code C and as
message the slice of M. -/
theorem closed_error_keeps_domain_code_message (g : Glue) (jSocket D C : Int) (M : JString)
    (hLow : 0 ≤ D) (hHigh : D < 2 ^ g.errorDomainBits) :
    ∃ e, closedErrors (toPointer jSocket)
          (Java_com_couchbase_lite_internal_core_impl_NativeC4Socket_closed g jSocket D C M) =
          [e] ∧
      e.domain = D ∧ e.code = C ∧ e.message = g.jstringSlice M := by
  refine ⟨c4error_make D C (g.jstringSlice M), ?_, rfl, rfl, rfl⟩
  simp [Java_com_couchbase_lite_internal_core_impl_NativeC4Socket_closed, closedErrors,
    toC4ErrorDomain, Int.emod_eq_of_lt hLow hHigh]

/-- C6, at a concrete input: domain 6, code 1000 and the message "abc", whose
slice holds the bytes 97, 98, 99. -/
theorem closed_error_keeps_domain_code_message_witness :
    utf8Glue.jstringSlice "abc" = [97, 98, 99] ∧
      ∃ e, closedErrors (toPointer 4096)
          (Java_com_couchbase_lite_internal_core_impl_NativeC4Socket_closed utf8Glue 4096 6 1000
            "abc") = [e] ∧
        e.domain = 6 ∧ e.code = 1000 ∧ e.message = utf8Glue.jstringSlice "abc" :=
  ⟨by decide,
   closed_error_keeps_domain_code_message utf8Glue 4096 6 1000 "abc" (by decide) (by decide)⟩

/-! ## Pending exceptions and the arguments of the callbacks (C11, C13 to C15) -/

/-- C11, as stated, fails: entered on a thread whose environment has an
exception pending, `socket_close` still invokes the managed method, and it
logs nothing. -/
theorem pending_exception_not_checked :
    kSocketFactory { attachedThread with exceptionPending := true } (SocketEvent.evClose 4096) =
        [Action.GetEnv,
         Action.CallStaticVoidMethod EnvOrigin.fromGetEnv JMethod.m_C4Socket_close
           [JValue.jlong 4096]] ∧
      warnings (kSocketFactory { attachedThread with exceptionPending := true }
        (SocketEvent.evClose 4096)) = [] := by
  decide

/-- C11, amended: none of the five socket callbacks looks for a pending
exception.  When a runtime environment is available, the callback makes the
same calls whether or not an exception is pending in it, and it invokes the
managed method exactly once. -/
theorem pending_exception_changes_nothing (jvm : JvmReplies) (ev : SocketEvent)
    (hEnv : envAvailable jvm) (pending : Bool) :
    kSocketFactory { jvm with exceptionPending := pending } ev = kSocketFactory jvm ev ∧
      (invocations (kSocketFactory { jvm with exceptionPending := pending } ev)).length = 1 := by
  have hsame : kSocketFactory { jvm with exceptionPending := pending } ev =
      kSocketFactory jvm ev := by
    cases ev <;> rfl
  refine ⟨hsame, ?_⟩
  rw [hsame]
  have h := congrArg List.length (forwarded_callback jvm ev hEnv)
  simpa [forwarded] using h

/-- C11 amended, at a concrete input: `socket_write` on a detached thread
with an exception pending. -/
theorem pending_exception_changes_nothing_witness :
    kSocketFactory { detachedThread with exceptionPending := true }
        (SocketEvent.evWrite 4096 [1, 2, 3]) =
        kSocketFactory detachedThread (SocketEvent.evWrite 4096 [1, 2, 3]) ∧
      (invocations (kSocketFactory { detachedThread with exceptionPending := true }
        (SocketEvent.evWrite 4096 [1, 2, 3]))).length = 1 :=
  pending_exception_changes_nothing detachedThread (SocketEvent.evWrite 4096 [1, 2, 3])
    (by decide) true

/-- C13: for every socket handle, factory context, address and options blob,
`socket_open`, when a runtime environment is available, invokes
`C4Socket.open` exactly once, with the arguments, in order: the handle as a
64-bit integer, the factory context object, the scheme, the hostname, the
port and the path of the address, and the options bytes. -/
theorem socket_open_passes_arguments (jvm : JvmReplies) (socket : Nat) (addr : C4Address)
    (options : Slice) (socketFactoryContext : Nat) (hEnv : envAvailable jvm) :
    ∃ env, invocations (socket_open jvm socket addr options socketFactoryContext) =
      [(env, JMethod.m_C4Socket_open,
        [JValue.jlong (toJLong socket),
         JValue.jobject socketFactoryContext,
         JValue.toJString addr.scheme,
         JValue.toJString addr.hostname,
         JValue.jint addr.port,
         JValue.toJString addr.path,
         JValue.toJByteArray options])] := by
  rcases hEnv with hOk | ⟨hd, ha⟩
  · exact ⟨EnvOrigin.fromGetEnv, by simp [socket_open, hOk, invocations]⟩
  · refine ⟨EnvOrigin.fromAttach, ?_⟩
    by_cases hdet : jvm.detachStat = 0 <;>
      simp [socket_open, hd, ha, hdet, invocations, JNI_OK, JNI_EDETACHED]

/-- C13, at a concrete input: the handle 4096 opened for wss on port 443. -/
theorem socket_open_passes_arguments_witness :
    ∃ env, invocations (socket_open attachedThread 4096
        { scheme := [119, 115, 115], hostname := [120], port := 443, path := [47] } [9, 9] 7) =
      [(env, JMethod.m_C4Socket_open,
        [JValue.jlong (toJLong 4096),
         JValue.jobject 7,
         JValue.toJString [119, 115, 115],
         JValue.toJString [120],
         JValue.jint ((443 : Nat) : Int),
         JValue.toJString [47],
         JValue.toJByteArray [9, 9]])] :=
  socket_open_passes_arguments attachedThread 4096
    { scheme := [119, 115, 115], hostname := [120], port := 443, path := [47] } [9, 9] 7
    (by decide)

theorem toJLong_of_lt (n : Nat) (hn : n < 2 ^ 63) : toJLong n = (n : Int) := by
  have h64 : n % 2 ^ 64 = n := Nat.mod_eq_of_lt (by omega)
  unfold toJLong
  rw [h64, if_pos hn]

theorem toSizeT_of_lt (n : Nat) (hn : n < 2 ^ 64) : toSizeT (n : Int) = n := by
  unfold toSizeT
  have h : ((n : Int) % 2 ^ 64) = (n : Int) :=
    Int.emod_eq_of_lt (Int.natCast_nonneg n) (by exact_mod_cast hn)
  rw [h]
  simp

/-- C14: for every byte count n with 0 <= n < 2^63, `socket_completedReceive`,
when a runtime environment is available, hands exactly n to the managed
`C4Socket.completedReceive`, and the managed-side `completedWrite(handle, n)`
hands exactly n to `c4socket_completedWrite`. -/
theorem byte_counts_survive_casts (jvm : JvmReplies) (socket : Nat) (jSocket : Int) (n : Nat)
    (hEnv : envAvailable jvm) (hn : n < 2 ^ 63) :
    (∃ env, invocations (socket_completedReceive jvm socket n) =
        [(env, JMethod.m_C4Socket_completedReceive,
          [JValue.jlong (toJLong socket), JValue.jlong (n : Int)])]) ∧
      Java_com_couchbase_lite_internal_core_impl_NativeC4Socket_completedWrite jSocket (n : Int) =
        [Action.c4socket_completedWrite (toPointer jSocket) n] := by
  constructor
  · rcases hEnv with hOk | ⟨hd, ha⟩
    · exact ⟨EnvOrigin.fromGetEnv, by
        simp [socket_completedReceive, hOk, invocations, toJLong_of_lt n hn]⟩
    · refine ⟨EnvOrigin.fromAttach, ?_⟩
      by_cases hdet : jvm.detachStat = 0 <;>
        simp [socket_completedReceive, hd, ha, hdet, invocations, JNI_OK, JNI_EDETACHED,
          toJLong_of_lt n hn]
  · simp [Java_com_couchbase_lite_internal_core_impl_NativeC4Socket_completedWrite,
      toSizeT_of_lt n (by omega)]

/-- C14, at a concrete input: the byte count 50, on a detached thread. -/
theorem byte_counts_survive_casts_witness :
    (∃ env, invocations (socket_completedReceive detachedThread 4096 50) =
        [(env, JMethod.m_C4Socket_completedReceive,
          [JValue.jlong (toJLong 4096), JValue.jlong ((50 : Nat) : Int)])]) ∧
      Java_com_couchbase_lite_internal_core_impl_NativeC4Socket_completedWrite 4096
          ((50 : Nat) : Int) =
        [Action.c4socket_completedWrite (toPointer 4096) 50] :=
  byte_counts_survive_casts detachedThread 4096 4096 50 (by decide) (by decide)

/-- C15: for every byte sequence b, `socket_write`, when a runtime environment
is available, hands the managed `C4Socket.write` the byte array made of
exactly b, and the managed-side `received(handle, b)` and
`gotHTTPResponse(handle, status, b)` hand the engine the slice of exactly b:
where the slice of an array holds the bytes of the array, its contents are b. -/
theorem payload_passed_unchanged (jvm : JvmReplies) (jbyteArraySlice : List Nat → Slice)
    (socket : Nat) (jSocket httpStatus : Int) (b : List Nat) (hEnv : envAvailable jvm)
    (hSlice : jbyteArraySlice b = b) :
    (∃ env, invocations (socket_write jvm socket b) =
        [(env, JMethod.m_C4Socket_write,
          [JValue.jlong (toJLong socket), JValue.toJByteArray b])]) ∧
      Java_com_couchbase_lite_internal_core_impl_NativeC4Socket_received jbyteArraySlice
          jSocket b =
        [Action.c4socket_received (toPointer jSocket) b] ∧
      Java_com_couchbase_lite_internal_core_impl_NativeC4Socket_gotHTTPResponse jbyteArraySlice
          jSocket httpStatus b =
        [Action.c4socket_gotHTTPResponse (toPointer jSocket) httpStatus b] := by
  refine ⟨?_, ?_, ?_⟩
  · rcases hEnv with hOk | ⟨hd, ha⟩
    · exact ⟨EnvOrigin.fromGetEnv, by simp [socket_write, hOk, invocations]⟩
    · refine ⟨EnvOrigin.fromAttach, ?_⟩
      by_cases hdet : jvm.detachStat = 0 <;>
        simp [socket_write, hd, ha, hdet, invocations, JNI_OK, JNI_EDETACHED]
  · simp [Java_com_couchbase_lite_internal_core_impl_NativeC4Socket_received, hSlice]
  · simp [Java_com_couchbase_lite_internal_core_impl_NativeC4Socket_gotHTTPResponse, hSlice]

/-- C15, at a concrete input: the bytes 0, 255, 128 and a helper that gives
the bytes of the array as they are. -/
theorem payload_passed_unchanged_witness :
    (∃ env, invocations (socket_write attachedThread 4096 [0, 255, 128]) =
        [(env, JMethod.m_C4Socket_write,
          [JValue.jlong (toJLong 4096), JValue.toJByteArray [0, 255, 128]])]) ∧
      Java_com_couchbase_lite_internal_core_impl_NativeC4Socket_received (fun a => a)
          4096 [0, 255, 128] =
        [Action.c4socket_received (toPointer 4096) [0, 255, 128]] ∧
      Java_com_couchbase_lite_internal_core_impl_NativeC4Socket_gotHTTPResponse (fun a => a)
          4096 200 [0, 255, 128] =
        [Action.c4socket_gotHTTPResponse (toPointer 4096) 200 [0, 255, 128]] :=
  payload_passed_unchanged attachedThread (fun a => a) 4096 4096 200 [0, 255, 128]
    (by decide) rfl

/-! ## Creation of handles and the end-to-end scenario (C16, C17) -/

theorem createdHandles_append (a b : List Action) :
    createdHandles (a ++ b) = createdHandles a ++ createdHandles b := by
  induction a with
  | nil => rfl
  | cons x xs ih => cases x <;> simp [createdHandles, ih]

/-- C16, as stated, fails: a second `fromNative` call for the same context,
answered by the engine with the handle 4096 it has handed out already,
returns 4096 again, not a failure, and the engine has been asked to create a
handle twice. -/
theorem duplicate_handle_not_rejected :
    (Java_com_couchbase_lite_internal_core_impl_NativeC4Socket_fromNative utf8Glue
        sampleHeaders 4096 7 "wss" "x.example" 443 "/db" 1).2 = 4096 ∧
      createdHandles
        ((Java_com_couchbase_lite_internal_core_impl_NativeC4Socket_fromNative utf8Glue
            sampleHeaders 4096 7 "wss" "x.example" 443 "/db" 1).1 ++
          (Java_com_couchbase_lite_internal_core_impl_NativeC4Socket_fromNative utf8Glue
            sampleHeaders 4096 7 "wss" "x.example" 443 "/db" 1).1) = [4096, 4096] := by
  decide

/-- C16, amended: `fromNative` keeps no registry and never fails with
DuplicateHandle.  Whatever calls came before, also ones that created the
same handle, every call asks the engine once, through `c4socket_fromNative`,
to create a handle, and returns that handle as a long. -/
theorem fromNative_always_creates (g : Glue) (h : SocketHeaders) (created : Nat)
    (jcontext : Int) (jscheme jhost : JString) (jport : Int) (jpath : JString) (jframing : Int)
    (before : List Action) :
    (Java_com_couchbase_lite_internal_core_impl_NativeC4Socket_fromNative g h created jcontext
        jscheme jhost jport jpath jframing).2 = toJLong created ∧
      (Java_com_couchbase_lite_internal_core_impl_NativeC4Socket_fromNative g h created jcontext
        jscheme jhost jport jpath jframing).1.length = 1 ∧
      createdHandles
        (before ++
          (Java_com_couchbase_lite_internal_core_impl_NativeC4Socket_fromNative g h created
            jcontext jscheme jhost jport jpath jframing).1) =
        createdHandles before ++ [created] := by
  refine ⟨rfl, rfl, ?_⟩
  rw [createdHandles_append]
  rfl

theorem toPointer_toJLong (H : Nat) (hH : H < 2 ^ 64) : toPointer (toJLong H) = H := by
  have h64 : H % 2 ^ 64 = H := Nat.mod_eq_of_lt hH
  unfold toPointer toJLong
  rw [h64]
  split_ifs with hlt
  · have h : ((H : Int) % 2 ^ 64) = (H : Int) :=
      Int.emod_eq_of_lt (Int.natCast_nonneg H) (by exact_mod_cast hH)
    rw [h]
    simp
  · have h : (((H : Int) - 2 ^ 64) % 2 ^ 64) = (H : Int) := by
      rw [Int.sub_emod, Int.emod_self, sub_zero, Int.emod_emod_of_dvd _ (dvd_refl _)]
      exact Int.emod_eq_of_lt (Int.natCast_nonneg H) (by exact_mod_cast hH)
    rw [h]
    simp

theorem count_callback_retain (jvm : JvmReplies) (ev : SocketEvent) (socket : Nat) :
    (kSocketFactory jvm ev).count (Action.c4socket_retain socket) = 0 := by
  rw [List.count_eq_zero]
  intro hmem
  cases ev <;>
    simp only [kSocketFactory, socket_open, socket_write, socket_completedReceive,
      socket_requestClose, socket_close] at hmem <;>
    split_ifs at hmem <;> simp at hmem

theorem count_callback_release (jvm : JvmReplies) (ev : SocketEvent) (socket : Nat) :
    (kSocketFactory jvm ev).count (Action.c4socket_release socket) = 0 := by
  rw [List.count_eq_zero]
  intro hmem
  cases ev <;>
    simp only [kSocketFactory, socket_open, socket_write, socket_completedReceive,
      socket_requestClose, socket_close] at hmem <;>
    split_ifs at hmem <;> simp at hmem

/-- C17: in the end-to-end scenario, for the handle H the engine creates for
scheme wss, host x.example, port 443 and path /db/_blipsync, after open
delivered, write of 100 bytes, write-completed 100, receive of 50 bytes,
completedReceive 50 and closed with code 1000 and an empty message, the
retain count of H is zero, exactly one release was issued on H, and H, which
was created, is absent from the registry. -/
theorem end_to_end_disposes_handle (g : Glue) (h : SocketHeaders)
    (jbyteArraySlice : List Nat → Slice) (jvmOpen jvmWrite jvmReceive : JvmReplies) (H : Nat)
    (jcontext jframing : Int) (options : Slice) (webSocketDomain : Int) (hH : H < 2 ^ 64) :
    retainCount H (endToEndScenario g h jbyteArraySlice jvmOpen jvmWrite jvmReceive H jcontext
        jframing options webSocketDomain) = 0 ∧
      (endToEndScenario g h jbyteArraySlice jvmOpen jvmWrite jvmReceive H jcontext jframing
        options webSocketDomain).count (Action.c4socket_release H) = 1 ∧
      H ∈ createdHandles (endToEndScenario g h jbyteArraySlice jvmOpen jvmWrite jvmReceive H
        jcontext jframing options webSocketDomain) ∧
      registered H (endToEndScenario g h jbyteArraySlice jvmOpen jvmWrite jvmReceive H jcontext
        jframing options webSocketDomain) = false := by
  have hp := toPointer_toJLong H hH
  have o1 := count_callback_retain jvmOpen
    (SocketEvent.evOpen H
      { scheme := g.jstringSlice "wss", hostname := g.jstringSlice "x.example", port := 443,
        path := g.jstringSlice "/db/_blipsync" } options (toPointer jcontext)) H
  have o2 := count_callback_release jvmOpen
    (SocketEvent.evOpen H
      { scheme := g.jstringSlice "wss", hostname := g.jstringSlice "x.example", port := 443,
        path := g.jstringSlice "/db/_blipsync" } options (toPointer jcontext)) H
  have w1 : ∀ d, (socket_write jvmWrite H d).count (Action.c4socket_retain H) = 0 :=
    fun d => count_callback_retain jvmWrite (SocketEvent.evWrite H d) H
  have w2 : ∀ d, (socket_write jvmWrite H d).count (Action.c4socket_release H) = 0 :=
    fun d => count_callback_release jvmWrite (SocketEvent.evWrite H d) H
  have r1 := count_callback_retain jvmReceive (SocketEvent.evCompletedReceive H 50) H
  have r2 := count_callback_release jvmReceive (SocketEvent.evCompletedReceive H 50) H
  simp only [kSocketFactory] at o1 o2 r1 r2
  have hrel : (endToEndScenario g h jbyteArraySlice jvmOpen jvmWrite jvmReceive H jcontext
      jframing options webSocketDomain).count (Action.c4socket_release H) = 1 := by
    simp [endToEndScenario, List.count_append, o2, w2, r2, hp,
      Java_com_couchbase_lite_internal_core_impl_NativeC4Socket_fromNative,
      Java_com_couchbase_lite_internal_core_impl_NativeC4Socket_completedWrite,
      Java_com_couchbase_lite_internal_core_impl_NativeC4Socket_received,
      Java_com_couchbase_lite_internal_core_impl_NativeC4Socket_closed, List.count_cons]
  have hret : (endToEndScenario g h jbyteArraySlice jvmOpen jvmWrite jvmReceive H jcontext
      jframing options webSocketDomain).count (Action.c4socket_retain H) = 0 := by
    simp [endToEndScenario, List.count_append, o1, w1, r1,
      Java_com_couchbase_lite_internal_core_impl_NativeC4Socket_fromNative,
      Java_com_couchbase_lite_internal_core_impl_NativeC4Socket_completedWrite,
      Java_com_couchbase_lite_internal_core_impl_NativeC4Socket_received,
      Java_com_couchbase_lite_internal_core_impl_NativeC4Socket_closed, List.count_cons]
  have hcount : retainCount H (endToEndScenario g h jbyteArraySlice jvmOpen jvmWrite jvmReceive
      H jcontext jframing options webSocketDomain) = 0 := by
    unfold retainCount
    rw [hrel, hret]
    rfl
  refine ⟨hcount, hrel, ?_, ?_⟩
  · simp [endToEndScenario, createdHandles_append, createdHandles,
      Java_com_couchbase_lite_internal_core_impl_NativeC4Socket_fromNative]
  · simp [registered, hcount]

/-- C17, at a concrete input: the handle 4096, the WebSocket domain as 6, the
write raised on a detached thread. -/
theorem end_to_end_disposes_handle_witness :
    retainCount 4096 (endToEndScenario utf8Glue sampleHeaders (fun a => a) attachedThread
        detachedThread attachedThread 4096 7 1 [] 6) = 0 ∧
      (endToEndScenario utf8Glue sampleHeaders (fun a => a) attachedThread detachedThread
        attachedThread 4096 7 1 [] 6).count (Action.c4socket_release 4096) = 1 ∧
      4096 ∈ createdHandles (endToEndScenario utf8Glue sampleHeaders (fun a => a)
        attachedThread detachedThread attachedThread 4096 7 1 [] 6) ∧
      registered 4096 (endToEndScenario utf8Glue sampleHeaders (fun a => a) attachedThread
        detachedThread attachedThread 4096 7 1 [] 6) = false :=
  end_to_end_disposes_handle utf8Glue sampleHeaders (fun a => a) attachedThread detachedThread
    attachedThread 4096 7 1 [] 6 (by decide)

end NativeC4Socket

/-! # The logging bridge: theorems (C12, C18, C20) -/

namespace NativeC4

open NativeC4Socket

/-- C12 fails on the code: on a thread that `logCallback` attached itself, it
returns without `DetachCurrentThread` when the message cannot be encoded and
when an exception is outstanding; on the path that reaches the managed
method, it does detach. -/
theorem logCallback_early_return_skips_detach :
    logCallback true true detachedThread sampleLogGlue 1 3 [72, 255] =
        [LogAction.GetEnv,
         LogAction.attachCurrentThread,
         LogAction.ExceptionCheck,
         LogAction.UTF8ToJstring [72, 255],
         LogAction.logError "logCallback(): Failed encoding error message" []] ∧
      logCallback true true { detachedThread with exceptionPending := true } sampleLogGlue 1 3
          [72, 105] =
        [LogAction.GetEnv,
         LogAction.attachCurrentThread,
         LogAction.ExceptionCheck,
         LogAction.logError "logCallback(): Cannot log while an exception is outstanding" []] ∧
      logCallback true true detachedThread sampleLogGlue 1 3 [72, 105] =
        [LogAction.GetEnv,
         LogAction.attachCurrentThread,
         LogAction.ExceptionCheck,
         LogAction.UTF8ToJstring [72, 105],
         LogAction.c4log_getDomainName 1,
         LogAction.UTF8ToJstring [68, 66],
         LogAction.CallStaticVoidMethod (some "DB") 3 "Hi",
         LogAction.DeleteLocalRef "Hi",
         LogAction.DeleteLocalRef "DB",
         LogAction.DetachCurrentThread] := by
  decide

/-- C18, as stated, fails: when the message cannot be converted, the managed
`C4Log.logCallback` is not invoked at all; one error is logged. -/
theorem unencodable_message_blocks_delivery :
    logInvocations (logCallback true true attachedThread sampleLogGlue 1 3 [72, 255]) = [] ∧
      loggedErrors (logCallback true true attachedThread sampleLogGlue 1 3 [72, 255]) =
        ["logCallback(): Failed encoding error message"] := by
  decide

/-- C18, amended: in `logCallback`, with logging initialised, a runtime
environment available and no exception outstanding, when the message text
cannot be converted to a managed string the managed `C4Log.logCallback` is
not invoked, no placeholder is made, and the one error "Failed encoding error
message" is logged. -/
theorem unencodable_message_is_dropped (jvm : JvmReplies) (g : LogGlue) (domain : Nat)
    (level : Int) (fmt : Slice) (hEnv : envAvailable jvm)
    (hNoException : jvm.exceptionPending = false) (hMessage : g.UTF8ToJstring fmt = none) :
    logInvocations (logCallback true true jvm g domain level fmt) = [] ∧
      (logCallback true true jvm g domain level fmt).count (LogAction.NewStringUTF "???") = 0 ∧
      loggedErrors (logCallback true true jvm g domain level fmt) =
        ["logCallback(): Failed encoding error message"] := by
  rcases hEnv with hOk | ⟨hd, ha⟩
  · simp [logCallback, hOk, hNoException, hMessage, logInvocations, loggedErrors, JNI_OK,
      JNI_EDETACHED]
  · simp [logCallback, hd, ha, hNoException, hMessage, logInvocations, loggedErrors, JNI_OK,
      JNI_EDETACHED]

/-- C18 amended, at a concrete input: a message holding the byte 255. -/
theorem unencodable_message_is_dropped_witness :
    logInvocations (logCallback true true attachedThread sampleLogGlue 1 3 [72, 255]) = [] ∧
      (logCallback true true attachedThread sampleLogGlue 1 3 [72, 255]).count
        (LogAction.NewStringUTF "???") = 0 ∧
      loggedErrors (logCallback true true attachedThread sampleLogGlue 1 3 [72, 255]) =
        ["logCallback(): Failed encoding error message"] :=
  unencodable_message_is_dropped attachedThread sampleLogGlue 1 3 [72, 255] (by decide) rfl
    (by decide)

theorem levelOf_withLevel (e : LogDomains) (name : Slice) (l : Int) :
    levelOf (withLevel e name l) name = some l := by
  induction e with
  | nil => simp [withLevel, levelOf]
  | cons p rest ih =>
    obtain ⟨n, l0⟩ := p
    by_cases h : n = name
    · simp [withLevel, levelOf, h]
    · simp [withLevel, levelOf, h, ih]

theorem toC4LogLevel_of_level (bits : Nat) (L : Int) (hBits : 0 < bits) (hLow : 0 ≤ L)
    (hHigh : L < 2 ^ (bits - 1)) : toC4LogLevel bits L = L := by
  unfold toC4LogLevel
  have hpow : (2 : Int) ^ bits = 2 * 2 ^ (bits - 1) := by
    obtain ⟨k, rfl⟩ : ∃ k, bits = k + 1 := ⟨bits - 1, by omega⟩
    simp [pow_succ, mul_comm]
  have hpos : (0 : Int) < 2 ^ (bits - 1) := by positivity
  rw [Int.emod_eq_of_lt (by omega) (by omega)]
  omega

/-- C20: for every log domain name, `C4Log.getLevel` leaves the engine as it
is and returns -1 exactly when the engine has no domain of that name, the
levels the engine holds being log levels, none of them -1; `C4Log.setLevel`
creates the domain if it is missing and sets its level; hence `getLevel(d)`
after `setLevel(d, L)`, for a log level L, returns L, also when d was unknown
before. -/
theorem getLevel_after_setLevel (h : LogHeaders) (jstringSlice : JString → Slice)
    (e : LogDomains) (d : JString) (L : Int)
    (hBits : 0 < h.levelBits) (hLow : 0 ≤ L) (hHigh : L < 2 ^ (h.levelBits - 1))
    (hLevels : ∀ l, levelOf e (c_str (jstringSlice d)) = some l → l ≠ -1) :
    (Java_com_couchbase_lite_internal_core_C4Log_getLevel h jstringSlice e d).1 = e ∧
      ((Java_com_couchbase_lite_internal_core_C4Log_getLevel h jstringSlice e d).2 = -1 ↔
        levelOf e (c_str (jstringSlice d)) = none) ∧
      levelOf (Java_com_couchbase_lite_internal_core_C4Log_setLevel h jstringSlice e d L)
        (c_str (jstringSlice d)) = some L ∧
      (Java_com_couchbase_lite_internal_core_C4Log_getLevel h jstringSlice
        (Java_com_couchbase_lite_internal_core_C4Log_setLevel h jstringSlice e d L) d).2 = L := by
  have hcast := toC4LogLevel_of_level h.levelBits L hBits hLow hHigh
  have hset : levelOf
      (Java_com_couchbase_lite_internal_core_C4Log_setLevel h jstringSlice e d L)
      (c_str (jstringSlice d)) = some L := by
    cases hl : levelOf e (c_str (jstringSlice d)) with
    | none =>
      simp [Java_com_couchbase_lite_internal_core_C4Log_setLevel, c4log_getDomain,
        c4log_setLevel, hl, hcast, levelOf_withLevel]
    | some l =>
      simp [Java_com_couchbase_lite_internal_core_C4Log_setLevel, c4log_getDomain,
        c4log_setLevel, hl, hcast, levelOf_withLevel]
  refine ⟨?_, ?_, hset, ?_⟩
  · cases hl : levelOf e (c_str (jstringSlice d)) <;>
      simp [Java_com_couchbase_lite_internal_core_C4Log_getLevel, c4log_getDomain, hl]
  · cases hl : levelOf e (c_str (jstringSlice d)) with
    | none =>
      simp [Java_com_couchbase_lite_internal_core_C4Log_getLevel, c4log_getDomain, hl]
    | some l =>
      simpa [Java_com_couchbase_lite_internal_core_C4Log_getLevel, c4log_getDomain,
        c4log_getLevel, hl] using hLevels l hl
  · simp [Java_com_couchbase_lite_internal_core_C4Log_getLevel, c4log_getDomain,
      c4log_getLevel, hset]

/-- C20, at a concrete input: the unknown domain "Sync" set to level 4 in an
engine that holds the domain "DB" at level 1. -/
theorem getLevel_after_setLevel_witness :
    (Java_com_couchbase_lite_internal_core_C4Log_getLevel sampleLogHeaders
        utf8Glue.jstringSlice [([68, 66], 1)] "Sync").1 = [([68, 66], 1)] ∧
      ((Java_com_couchbase_lite_internal_core_C4Log_getLevel sampleLogHeaders
          utf8Glue.jstringSlice [([68, 66], 1)] "Sync").2 = -1 ↔
        levelOf [([68, 66], 1)] (c_str (utf8Glue.jstringSlice "Sync")) = none) ∧
      levelOf (Java_com_couchbase_lite_internal_core_C4Log_setLevel sampleLogHeaders
          utf8Glue.jstringSlice [([68, 66], 1)] "Sync" 4)
        (c_str (utf8Glue.jstringSlice "Sync")) = some 4 ∧
      (Java_com_couchbase_lite_internal_core_C4Log_getLevel sampleLogHeaders
        utf8Glue.jstringSlice
        (Java_com_couchbase_lite_internal_core_C4Log_setLevel sampleLogHeaders
          utf8Glue.jstringSlice [([68, 66], 1)] "Sync" 4) "Sync").2 = 4 :=
  getLevel_after_setLevel sampleLogHeaders utf8Glue.jstringSlice [([68, 66], 1)] "Sync" 4
    (by decide) (by decide) (by decide) (by decide)

end NativeC4

/-! # The blob store bridge: theorems (C19) -/

namespace NativeC4BlobStore

open NativeC4Socket

/-- C19 fails on the code: with a buffer of 10 bytes, offset 0 and size 10,
which pass the bounds check, and an engine read that reads nothing and reports
the error (domain 1, code 13), `C4BlobReadStream.read` raises nothing and
returns the byte count 0. -/
theorem read_error_not_raised :
    Java_com_couchbase_lite_internal_core_C4BlobReadStream_read__J_3BIJ 10
        { read := 0, error := { domain := 1, code := 13, internal_info := 0 } } 4096 0 10 =
        ([BlobAction.GetArrayLength,
          BlobAction.GetByteArrayElements,
          BlobAction.c4stream_read 4096 0 10,
          BlobAction.ReleaseByteArrayElements 0], 0) ∧
      thrownErrors
        (Java_com_couchbase_lite_internal_core_C4BlobReadStream_read__J_3BIJ 10
          { read := 0, error := { domain := 1, code := 13, internal_info := 0 } }
          4096 0 10).1 = [] := by
  decide

end NativeC4BlobStore

/-! # The socket bridge: creation of handles and the data buffer (C21, C29, C30) -/

namespace NativeC4Socket

theorem fromNativeCalls_fromNative (g : Glue) (h : SocketHeaders) (created : Nat)
    (jcontext : Int) (jscheme jhost : JString) (jport : Int) (jpath : JString)
    (jframing : Int) :
    fromNativeCalls
        (Java_com_couchbase_lite_internal_core_impl_NativeC4Socket_fromNative g h created
          jcontext jscheme jhost jport jpath jframing).1 =
      [({ framing := toC4SocketFraming h.framingBits jframing
          context := toPointer jcontext
          open_ := some SocketCallback.socket_open
          write := some SocketCallback.socket_write
          completedReceive := some SocketCallback.socket_completedReceive
          close := some SocketCallback.socket_close
          requestClose := some SocketCallback.socket_requestClose
          dispose := none },
        toPointer jcontext,
        { scheme := g.jstringSlice jscheme
          hostname := g.jstringSlice jhost
          port := toUInt16 jport
          path := g.jstringSlice jpath })] := by
  rfl

/-- C21: for every context, scheme, host, path, every port from 0 to 65535
and every framing value of the enumeration, `fromNative` calls
`c4socket_fromNative` exactly once, with a factory whose five callbacks are
`socket_open`, `socket_write`, `socket_completedReceive`, `socket_close` and
`socket_requestClose`, with dispose unset, whose framing is the framing
argument and whose context is the context argument, with the same context as
native handle, and with an address holding the given scheme, host, port and
path; it returns the handle of the engine as a 64-bit integer. -/
theorem fromNative_builds_factory_and_address (g : Glue) (h : SocketHeaders) (created : Nat)
    (jcontext : Int) (jscheme jhost : JString) (jport : Int) (jpath : JString)
    (jframing : Int)
    (hPortLow : 0 ≤ jport) (hPortHigh : jport < 2 ^ 16)
    (hFramingLow : 0 ≤ jframing) (hFramingHigh : jframing < 2 ^ h.framingBits) :
    fromNativeCalls
        (Java_com_couchbase_lite_internal_core_impl_NativeC4Socket_fromNative g h created
          jcontext jscheme jhost jport jpath jframing).1 =
        [({ framing := jframing
            context := toPointer jcontext
            open_ := some SocketCallback.socket_open
            write := some SocketCallback.socket_write
            completedReceive := some SocketCallback.socket_completedReceive
            close := some SocketCallback.socket_close
            requestClose := some SocketCallback.socket_requestClose
            dispose := none },
          toPointer jcontext,
          { scheme := g.jstringSlice jscheme
            hostname := g.jstringSlice jhost
            port := jport.toNat
            path := g.jstringSlice jpath })] ∧
      (Java_com_couchbase_lite_internal_core_impl_NativeC4Socket_fromNative g h created
        jcontext jscheme jhost jport jpath jframing).1.length = 1 ∧
      (Java_com_couchbase_lite_internal_core_impl_NativeC4Socket_fromNative g h created
        jcontext jscheme jhost jport jpath jframing).2 = toJLong created := by
  refine ⟨?_, rfl, rfl⟩
  rw [fromNativeCalls_fromNative]
  have hf : toC4SocketFraming h.framingBits jframing = jframing :=
    Int.emod_eq_of_lt hFramingLow hFramingHigh
  have hp : toUInt16 jport = jport.toNat := by
    unfold toUInt16
    rw [Int.emod_eq_of_lt hPortLow hPortHigh]
  rw [hf, hp]

/-- C21, at a concrete input: wss://x.example:443/db/_blipsync, framing 1,
context 7, the engine answering with the handle 4096. -/
theorem fromNative_builds_factory_and_address_witness :
    fromNativeCalls
        (Java_com_couchbase_lite_internal_core_impl_NativeC4Socket_fromNative utf8Glue
          sampleHeaders 4096 7 "wss" "x.example" 443 "/db/_blipsync" 1).1 =
        [({ framing := 1
            context := toPointer 7
            open_ := some SocketCallback.socket_open
            write := some SocketCallback.socket_write
            completedReceive := some SocketCallback.socket_completedReceive
            close := some SocketCallback.socket_close
            requestClose := some SocketCallback.socket_requestClose
            dispose := none },
          toPointer 7,
          { scheme := utf8Glue.jstringSlice "wss"
            hostname := utf8Glue.jstringSlice "x.example"
            port := (443 : Int).toNat
            path := utf8Glue.jstringSlice "/db/_blipsync" })] ∧
      (Java_com_couchbase_lite_internal_core_impl_NativeC4Socket_fromNative utf8Glue
        sampleHeaders 4096 7 "wss" "x.example" 443 "/db/_blipsync" 1).1.length = 1 ∧
      (Java_com_couchbase_lite_internal_core_impl_NativeC4Socket_fromNative utf8Glue
        sampleHeaders 4096 7 "wss" "x.example" 443 "/db/_blipsync" 1).2 = toJLong 4096 :=
  fromNative_builds_factory_and_address utf8Glue sampleHeaders 4096 7 "wss" "x.example" 443
    "/db/_blipsync" 1 (by decide) (by decide) (by decide) (by decide)

/-- C29: on every execution path of `socket_write`, whatever the Java VM
answers, the trace ends with the one `c4slice_free` of the data buffer:
everything else, any invocation of the managed `C4Socket.write` included,
comes before it, and nothing before it frees a buffer.  So the buffer is
freed exactly once, also when the event is dropped. -/
theorem socket_write_frees_buffer_last (jvm : JvmReplies) (socket : Nat)
    (allocatedData : Slice) :
    (∃ before, socket_write jvm socket allocatedData =
        before ++ [Action.c4slice_free allocatedData] ∧
        ∀ a ∈ before, ∀ data, a ≠ Action.c4slice_free data) ∧
      (socket_write jvm socket allocatedData).count (Action.c4slice_free allocatedData) = 1 := by
  unfold socket_write
  split_ifs <;> refine ⟨⟨_, rfl, ?_⟩, ?_⟩ <;> simp [List.count_cons]

/-- C30: for every port argument p, `fromNative` hands the engine an address
whose port is p mod 2^16, and the call is made and the handle returned
whatever p is; the port is p itself exactly when 0 <= p <= 65535. -/
theorem fromNative_port_wraps (g : Glue) (h : SocketHeaders) (created : Nat)
    (jcontext : Int) (jscheme jhost : JString) (p : Int) (jpath : JString) (jframing : Int) :
    (fromNativeCalls
        (Java_com_couchbase_lite_internal_core_impl_NativeC4Socket_fromNative g h created
          jcontext jscheme jhost p jpath jframing).1).map (fun c => c.2.2.port) =
        [(p % 2 ^ 16).toNat] ∧
      ((((fromNativeCalls
          (Java_com_couchbase_lite_internal_core_impl_NativeC4Socket_fromNative g h created
            jcontext jscheme jhost p jpath jframing).1).map
          (fun c => (c.2.2.port : Int))) = [p]) ↔ (0 ≤ p ∧ p ≤ 65535)) ∧
      (Java_com_couchbase_lite_internal_core_impl_NativeC4Socket_fromNative g h created
        jcontext jscheme jhost p jpath jframing).2 = toJLong created := by
  refine ⟨?_, ?_, rfl⟩
  · rw [fromNativeCalls_fromNative]
    rfl
  · rw [fromNativeCalls_fromNative]
    simp only [List.map_cons, List.map_nil, toUInt16, List.cons.injEq, and_true]
    have hnn : 0 ≤ p % 2 ^ 16 := Int.emod_nonneg p (by norm_num)
    have hlt : p % 2 ^ 16 < 2 ^ 16 := Int.emod_lt_of_pos p (by norm_num)
    rw [Int.toNat_of_nonneg hnn]
    constructor
    · intro heq
      rw [heq] at hnn hlt
      constructor
      · exact hnn
      · have : p < 65536 := by simpa using hlt
        omega
    · rintro ⟨h0, h1⟩
      exact Int.emod_eq_of_lt h0 (by norm_num; omega)

/-- C30, at concrete inputs: the port 443 is kept; the port 65979, which is
443 + 65536, and the port -65093 reach the engine as 443 as well. -/
theorem fromNative_port_wraps_witness :
    (fromNativeCalls
        (Java_com_couchbase_lite_internal_core_impl_NativeC4Socket_fromNative utf8Glue
          sampleHeaders 4096 7 "wss" "x.example" 443 "/db" 1).1).map
        (fun c => c.2.2.port) = [443] ∧
      (fromNativeCalls
        (Java_com_couchbase_lite_internal_core_impl_NativeC4Socket_fromNative utf8Glue
          sampleHeaders 4096 7 "wss" "x.example" 65979 "/db" 1).1).map
        (fun c => c.2.2.port) = [443] ∧
      (fromNativeCalls
        (Java_com_couchbase_lite_internal_core_impl_NativeC4Socket_fromNative utf8Glue
          sampleHeaders 4096 7 "wss" "x.example" (-65093) "/db" 1).1).map
        (fun c => c.2.2.port) = [443] :=
  ⟨(fromNative_port_wraps utf8Glue sampleHeaders 4096 7 "wss" "x.example" 443 "/db" 1).1,
   (fromNative_port_wraps utf8Glue sampleHeaders 4096 7 "wss" "x.example" 65979 "/db" 1).1,
   (fromNative_port_wraps utf8Glue sampleHeaders 4096 7 "wss" "x.example" (-65093) "/db" 1).1⟩

end NativeC4Socket

/-! # The logging bridge: what blocks delivery and the domain placeholder (C22, C23) -/

namespace NativeC4

open NativeC4Socket

/-- C22: in `logCallback`, the managed `C4Log.logCallback` is not invoked
and exactly one error is logged when logging is uninitialised, when no
runtime environment can be acquired (attaching fails, or `GetEnv` answers
neither `JNI_OK` nor `JNI_EDETACHED`), and when the acquired environment has
an exception outstanding. -/
theorem logCallback_blocked (cls_C4Log m_C4Log_logCallback : Bool) (jvm : JvmReplies)
    (g : LogGlue) (domain : Nat) (level : Int) (fmt : Slice)
    (hBlocked : cls_C4Log = false ∨ m_C4Log_logCallback = false ∨ envUnavailable jvm ∨
      jvm.exceptionPending = true) :
    logInvocations (logCallback cls_C4Log m_C4Log_logCallback jvm g domain level fmt) = [] ∧
      (loggedErrors
        (logCallback cls_C4Log m_C4Log_logCallback jvm g domain level fmt)).length = 1 := by
  have hUninit : cls_C4Log = false ∨ m_C4Log_logCallback = false →
      logInvocations (logCallback cls_C4Log m_C4Log_logCallback jvm g domain level fmt) = [] ∧
      (loggedErrors
        (logCallback cls_C4Log m_C4Log_logCallback jvm g domain level fmt)).length = 1 := by
    rintro (hc | hm)
    · simp [logCallback, hc, logInvocations, loggedErrors]
    · simp [logCallback, hm, logInvocations, loggedErrors]
  cases cls_C4Log with
  | false => exact hUninit (Or.inl rfl)
  | true =>
    cases m_C4Log_logCallback with
    | false => exact hUninit (Or.inr rfl)
    | true =>
      rcases hBlocked with hc | hm | hEnv | hEx
      · exact absurd hc (by decide)
      · exact absurd hm (by decide)
      · rcases hEnv with ⟨hd, ha⟩ | ⟨h1, h2⟩
        · simp [logCallback, hd, ha, logInvocations, loggedErrors]
        · simp [logCallback, h1, h2, logInvocations, loggedErrors]
      · by_cases hd : jvm.getEnvStat = JNI_EDETACHED
        · by_cases ha : jvm.attachStat = 0
          · simp [logCallback, hd, ha, hEx, logInvocations, loggedErrors]
          · simp [logCallback, hd, ha, logInvocations, loggedErrors]
        · by_cases hOk : jvm.getEnvStat = JNI_OK
          · simp [logCallback, hOk, hEx, logInvocations, loggedErrors, JNI_OK, JNI_EDETACHED]
          · simp [logCallback, hd, hOk, logInvocations, loggedErrors]

/-- C22, at a concrete input: a thread that has an environment with an
exception outstanding; the error logged says so. -/
theorem logCallback_blocked_witness :
    loggedErrors (logCallback true true { attachedThread with exceptionPending := true }
        sampleLogGlue 1 3 [72, 105]) =
        ["logCallback(): Cannot log while an exception is outstanding"] ∧
      logInvocations (logCallback true true { attachedThread with exceptionPending := true }
        sampleLogGlue 1 3 [72, 105]) = [] ∧
      (loggedErrors (logCallback true true { attachedThread with exceptionPending := true }
        sampleLogGlue 1 3 [72, 105])).length = 1 :=
  ⟨by decide,
   logCallback_blocked true true { attachedThread with exceptionPending := true }
     sampleLogGlue 1 3 [72, 105] (Or.inr (Or.inr (Or.inr rfl)))⟩

/-- C23: in `logCallback`, with logging initialised, a runtime environment
available and no exception outstanding, when the message converts and the
name of the log domain cannot be converted, the string the Java VM makes of
"???" takes the place of the domain name, and the managed
`C4Log.logCallback` is invoked exactly once, with that placeholder, the
original level and the converted message. -/
theorem unencodable_domain_gets_placeholder (jvm : JvmReplies) (g : LogGlue) (domain : Nat)
    (level : Int) (fmt : Slice) (message : JString) (hEnv : envAvailable jvm)
    (hNoException : jvm.exceptionPending = false)
    (hMessage : g.UTF8ToJstring fmt = some message)
    (hDomain : g.UTF8ToJstring (g.c4log_getDomainName domain) = none)
    (hPlaceholder : g.NewStringUTF "???" = some "???") :
    logInvocations (logCallback true true jvm g domain level fmt) =
        [(some "???", level, message)] ∧
      loggedErrors (logCallback true true jvm g domain level fmt) = [] := by
  rcases hEnv with hOk | ⟨hd, ha⟩
  · simp [logCallback, hOk, hNoException, hMessage, hDomain, hPlaceholder, logInvocations,
      loggedErrors, JNI_OK, JNI_EDETACHED]
  · by_cases hdet : jvm.detachStat = 0 <;>
      simp [logCallback, hd, ha, hdet, hNoException, hMessage, hDomain, hPlaceholder,
        logInvocations, loggedErrors, JNI_OK, JNI_EDETACHED]

/-- C23, at a concrete input: the message "Hi" at level 3 for a domain whose
name holds the byte 255. -/
theorem unencodable_domain_gets_placeholder_witness :
    logInvocations (logCallback true true detachedThread badDomainLogGlue 1 3 [72, 105]) =
        [(some "???", 3, "Hi")] ∧
      loggedErrors (logCallback true true detachedThread badDomainLogGlue 1 3 [72, 105]) = [] :=
  unencodable_domain_gets_placeholder detachedThread badDomainLogGlue 1 3 [72, 105] "Hi"
    (by decide) rfl (by decide) (by decide) (by decide)

end NativeC4

/-! # The blob store bridge: errors and bounds (C24 to C26) -/

namespace NativeC4BlobStore

open NativeC4Socket

/-- C24, as stated, fails: when the engine reports an error record with
domain 1 and code 0, `getContents` raises nothing and returns the address of
a result, and `getFilePath` raises nothing and returns a string. -/
theorem error_with_code_zero_not_raised :
    Java_com_couchbase_lite_internal_core_C4BlobStore_getContents
        { res := [], error := { domain := 1, code := 0, internal_info := 0 } } 8192 4096 512 =
        ([BlobAction.c4blob_getContents 4096 512, BlobAction.malloc], 8192) ∧
      Java_com_couchbase_lite_internal_core_C4BlobStore_getFilePath
        { res := [], error := { domain := 1, code := 0, internal_info := 0 } } 4096 512 =
        ([BlobAction.c4blob_getFilePath 4096 512, BlobAction.toJString [],
          BlobAction.c4slice_free []], some (JValue.toJString [])) := by
  decide

/-- C24, amended: `getContents` and `getFilePath` raise the error of the
engine and return 0 or null exactly when both the domain and the code of the
error record are non-zero; for every other record, one with a non-zero domain
and code 0 included, they raise nothing and return a result. -/
theorem blob_error_raised_iff_domain_and_code (reply : SliceReply) (allocated : Nat)
    (jblobstore jblobkey : Int) :
    thrownErrors (Java_com_couchbase_lite_internal_core_C4BlobStore_getContents reply allocated
        jblobstore jblobkey).1 =
        (if reply.error.domain ≠ 0 ∧ reply.error.code ≠ 0 then [reply.error] else []) ∧
      (Java_com_couchbase_lite_internal_core_C4BlobStore_getContents reply allocated
        jblobstore jblobkey).2 =
        (if reply.error.domain ≠ 0 ∧ reply.error.code ≠ 0 then 0 else toJLong allocated) ∧
      thrownErrors (Java_com_couchbase_lite_internal_core_C4BlobStore_getFilePath reply
        jblobstore jblobkey).1 =
        (if reply.error.domain ≠ 0 ∧ reply.error.code ≠ 0 then [reply.error] else []) ∧
      (Java_com_couchbase_lite_internal_core_C4BlobStore_getFilePath reply
        jblobstore jblobkey).2 =
        (if reply.error.domain ≠ 0 ∧ reply.error.code ≠ 0 then none
          else some (JValue.toJString reply.res)) := by
  unfold Java_com_couchbase_lite_internal_core_C4BlobStore_getContents
    Java_com_couchbase_lite_internal_core_C4BlobStore_getFilePath
  by_cases h : reply.error.domain ≠ 0 ∧ reply.error.code ≠ 0
  · simp only [if_pos h, thrownErrors, and_self]
  · simp only [if_neg h, thrownErrors, and_self]

theorem add64_of_bounds (a b : Int) (hLow : -2 ^ 63 ≤ a + b) (hHigh : a + b < 2 ^ 63) :
    add64 a b = a + b := by
  unfold add64
  rw [Int.emod_eq_of_lt (by omega) (by omega)]
  omega

/-- C25: for every buffer of length L, offset and size whose sum, taken
without overflow, is greater than L, `C4BlobReadStream.read` raises a managed
error and returns -1; it does not get at the elements of the buffer and does
not call the engine read. -/
theorem read_rejects_oversized_request (L : Int) (reply : ReadReply)
    (jstream offset jsize : Int) (hLength : 0 ≤ L) (hNoOverflow : offset + jsize < 2 ^ 63)
    (hTooLarge : offset + jsize > L) :
    Java_com_couchbase_lite_internal_core_C4BlobReadStream_read__J_3BIJ L reply jstream offset
        jsize =
        ([BlobAction.GetArrayLength,
          BlobAction.throwError { domain := 0, code := 0, internal_info := 0 }], -1) ∧
      readRegions (Java_com_couchbase_lite_internal_core_C4BlobReadStream_read__J_3BIJ L reply
        jstream offset jsize).1 = [] ∧
      (thrownErrors (Java_com_couchbase_lite_internal_core_C4BlobReadStream_read__J_3BIJ L
        reply jstream offset jsize).1).length = 1 := by
  have hsum : add64 offset jsize = offset + jsize :=
    add64_of_bounds offset jsize (by omega) hNoOverflow
  have hgt : add64 offset jsize > L := by rw [hsum]; exact hTooLarge
  unfold Java_com_couchbase_lite_internal_core_C4BlobReadStream_read__J_3BIJ
  rw [if_pos hgt]
  simp [readRegions, thrownErrors]

/-- C25, at a concrete input: a buffer of 10 bytes, offset 4 and size 7. -/
theorem read_rejects_oversized_request_witness :
    Java_com_couchbase_lite_internal_core_C4BlobReadStream_read__J_3BIJ 10
        { read := 7, error := { domain := 0, code := 0, internal_info := 0 } } 4096 4 7 =
        ([BlobAction.GetArrayLength,
          BlobAction.throwError { domain := 0, code := 0, internal_info := 0 }], -1) ∧
      readRegions (Java_com_couchbase_lite_internal_core_C4BlobReadStream_read__J_3BIJ 10
        { read := 7, error := { domain := 0, code := 0, internal_info := 0 } } 4096 4 7).1 =
        [] ∧
      (thrownErrors (Java_com_couchbase_lite_internal_core_C4BlobReadStream_read__J_3BIJ 10
        { read := 7, error := { domain := 0, code := 0, internal_info := 0 } }
        4096 4 7).1).length = 1 :=
  read_rejects_oversized_request 10
    { read := 7, error := { domain := 0, code := 0, internal_info := 0 } } 4096 4 7
    (by decide) (by decide) (by decide)

/-- C26 fails on the code: with a buffer of 10 bytes, the request of offset -5
and size 5 is not rejected and the engine is told to write 5 bytes from 5
bytes before the buffer; the request of offset 0 and size -1 is not rejected
and the engine is told to write 2^64 - 1 bytes. -/
theorem read_region_outside_buffer :
    readRegions (Java_com_couchbase_lite_internal_core_C4BlobReadStream_read__J_3BIJ 10
        { read := 5, error := { domain := 0, code := 0, internal_info := 0 } }
        4096 (-5) 5).1 = [(-5, 5)] ∧
      ¬ insideBuffer 10 (-5, 5) ∧
      thrownErrors (Java_com_couchbase_lite_internal_core_C4BlobReadStream_read__J_3BIJ 10
        { read := 5, error := { domain := 0, code := 0, internal_info := 0 } }
        4096 (-5) 5).1 = [] ∧
      readRegions (Java_com_couchbase_lite_internal_core_C4BlobReadStream_read__J_3BIJ 10
        { read := 5, error := { domain := 0, code := 0, internal_info := 0 } }
        4096 0 (-1)).1 = [(0, 18446744073709551615)] ∧
      ¬ insideBuffer 10 (0, 18446744073709551615) := by
  decide

end NativeC4BlobStore

/-! # The document enumerator bridge: theorems (C27, C28) -/

namespace NativeC4DocEnumerator

open NativeC4Socket

/-- C27: for every 64-bit `since`, `C4DocEnumerator.enumerateChanges` hands
the engine the starting sequence `since` mod 2^16; that is `since` itself
exactly when 0 <= since < 65536, and for `since` = 65536 it is 0. -/
theorem enumerateChanges_narrows_since (flagsBits : Nat) (e : Nat)
    (error : NativeC4BlobStore.C4Error) (jdb since jflags : Int) :
    startingSequences (Java_com_couchbase_lite_internal_core_C4DocEnumerator_enumerateChanges
        flagsBits e error jdb since jflags).1 = [(since % 2 ^ 16).toNat] ∧
      ((startingSequences
          (Java_com_couchbase_lite_internal_core_C4DocEnumerator_enumerateChanges
            flagsBits e error jdb since jflags).1).map (fun (n : Nat) => (n : Int)) =
          [since] ↔
        (0 ≤ since ∧ since < 65536)) ∧
      startingSequences (Java_com_couchbase_lite_internal_core_C4DocEnumerator_enumerateChanges
        flagsBits e error jdb 65536 jflags).1 = [0] := by
  have hstart : ∀ x : Int,
      startingSequences (Java_com_couchbase_lite_internal_core_C4DocEnumerator_enumerateChanges
        flagsBits e error jdb x jflags).1 = [(x % 2 ^ 16).toNat] := by
    intro x
    unfold Java_com_couchbase_lite_internal_core_C4DocEnumerator_enumerateChanges
    split_ifs <;> rfl
  refine ⟨hstart since, ?_, ?_⟩
  · rw [hstart]
    simp only [List.map_cons, List.map_nil, List.cons.injEq, and_true]
    have hnn : 0 ≤ since % 2 ^ 16 := Int.emod_nonneg since (by norm_num)
    have hlt : since % 2 ^ 16 < 2 ^ 16 := Int.emod_lt_of_pos since (by norm_num)
    rw [Int.toNat_of_nonneg hnn]
    constructor
    · intro heq
      rw [heq] at hnn hlt
      exact ⟨hnn, by simpa using hlt⟩
    · rintro ⟨h0, h1⟩
      exact Int.emod_eq_of_lt h0 (by norm_num; omega)
  · rw [hstart]
    decide

/-- C28: for every enumerator handle, `C4DocEnumerator.next` raises a managed
error, the one of the engine, exactly when `c4enum_next` answers false with a
non-zero error code; it returns what the engine answers: false without
raising at the end of the enumeration (false with code 0), and true without
raising when the engine answers true. -/
theorem next_raises_iff_false_with_code (res : Bool) (error : NativeC4BlobStore.C4Error)
    (handle : Int) :
    raisedErrors (Java_com_couchbase_lite_internal_core_C4DocEnumerator_next res error
        handle).1 = (if res = false ∧ error.code ≠ 0 then [error] else []) ∧
      (raisedErrors (Java_com_couchbase_lite_internal_core_C4DocEnumerator_next res error
        handle).1 ≠ [] ↔ (res = false ∧ error.code ≠ 0)) ∧
      (Java_com_couchbase_lite_internal_core_C4DocEnumerator_next res error handle).2 = res := by
  unfold Java_com_couchbase_lite_internal_core_C4DocEnumerator_next
  by_cases h : res = false ∧ error.code ≠ 0
  · simp only [if_pos h, raisedErrors]
    exact ⟨trivial, ⟨fun _ => h, fun _ => by simp⟩, h.1.symm⟩
  · simp only [if_neg h, raisedErrors]
    exact ⟨trivial, ⟨fun hne => absurd rfl hne, fun hh => absurd hh h⟩, trivial⟩

end NativeC4DocEnumerator
